import Mathlib

/-!
Verification of the download orchestration engine of `osu-collector-dl`.

The definitions below are a shallow embedding of `src/core/DownloadManager.ts`
(class `DownloadManager`), `src/core/Requestor.ts` and the mirror registry of
`src/struct/Constant.ts`.  Pure functions become Lean functions; the mutable
fields of the `DownloadManager` instance (together with the `p-queue` pause /
concurrency state it manipulates and the pending `collection.beatMapSets` map)
become an explicit state record threaded through a step function.  Network
responses and the out-of-band rate-limit query are oracle inputs: one attempt
performs at most one HTTP fetch and at most one rate-limit query, so each is
passed as an explicit argument and flags in the result record whether the
code actually consumed it.
-/

namespace Ocdl

/-- The mirror enumeration of `src/struct/Constant.ts` (`enum Mirror`), in
declaration order. -/
inductive Mirror where
  | Catboy
  | Nerinyan
  | OsuDirect
  | Sayobot
  | Beatconnect
  | Nekoha
deriving DecidableEq, Repr, Fintype

/-- The registry in declaration order: `Object.values(Mirror)`. -/
def mirrorRegistry : List Mirror :=
  [.Catboy, .Nerinyan, .OsuDirect, .Sayobot, .Beatconnect, .Nekoha]

/-- Function `getFallbackMirrors` of `src/struct/Constant.ts`:
`Object.values(Mirror).filter(m => m !== current)`. -/
def getFallbackMirrors (current : Mirror) : List Mirror :=
  mirrorRegistry.filter (fun m => m != current)

/-- The mirrors the manager treats as having no rate limit (the
`noRateLimit` test of the constructor and the guards at lines 192 and 203 of
`DownloadManager.ts`): Nerinyan, Sayobot, Beatconnect and Nekoha.  The
throttled class is Catboy and OsuDirect. -/
def isUnthrottled (m : Mirror) : Bool :=
  m == .Nerinyan || m == .Sayobot || m == .Beatconnect || m == .Nekoha

/-- One HTTP response as the engine observes it: status code, the parsed
`x-ratelimit-remaining` header when present and numeric, and the total body
size streamed (`none` models `res.body === null`). -/
structure HttpResponse where
  status : Nat
  xRateLimitRemaining : Option Nat
  bodyBytes : Option Nat
deriving DecidableEq, Repr

/-- The slice of the global `config` object the download manager reads. -/
structure Config where
  mirror : Mirror
  parallel : Bool
  concurrency : Nat
deriving DecidableEq, Repr

/-- The value `config.parallel ? config.concurrency : 1` (constructor line 71 and the
probe-success restore at line 252 of `DownloadManager.ts`). -/
def configConcurrency (cfg : Config) : Nat :=
  if cfg.parallel then cfg.concurrency else 1

/-- The mutable state of one `DownloadManager` run: the private fields of the
class, the pause / concurrency state of its `p-queue`, the pending
`collection.beatMapSets` map (as the list of its keys), the pending
`setTimeout(() => queue.start(), 60e3)` timer, and the current clock
(`Date.now()`, in milliseconds). -/
structure ManagerState where
  downloadedBeatMapSetSize : Nat
  skippedBeatMapSetSize : Nat
  existingBeatmapsetIds : Option (List Nat)
  remainingDownloadsLimit : Option Int
  lastDownloadsLimitCheck : Option Nat
  testRequest : Bool
  bannedMirrors : List Mirror
  pendingIds : List Nat
  queuePaused : Bool
  queueConcurrency : Nat
  resumeAt : Option Nat
  now : Nat
deriving DecidableEq, Repr

/-- The event taxonomy of `DownloadManagerEvents` (payloads reduced to the
beatmapset ids the engine passes). -/
inductive Event where
  | downloading (id : Nat)
  | downloaded (id : Nat)
  | skipped (id : Nat)
  | errored (id : Nat)
  | retrying (id : Nat)
  | rateLimited
  | dailyRateLimited (ids : List Nat)
  | blocked (ids : List Nat)
  | unavailable (ids : List Nat)
  | ended (ids : List Nat)
deriving DecidableEq, Repr

/-- A closure sitting in the `p-queue`.  `bulk` is the task added per item by
`bulkDownload` (skip check, then `_downloadFile` with no options, deleting
the item from the collection on success).  `plain` is the re-enqueue of the
429 handler (`queue.add(async () => await this._downloadFile(beatMapSet,
options))` at lines 205 and 229 — the result is discarded).  `retryNext` is
the re-enqueue of the catch clause (lines 293-301), which carries
`remainingMirrors` and deletes the item from the collection on success. -/
inductive QueuedTask where
  | bulk (id : Nat)
  | plain (id : Nat) (remainingMirrors : Option (List Mirror))
  | retryNext (id : Nat) (remainingMirrors : List Mirror)
deriving DecidableEq, Repr

/-- Everything one queue task execution produces: the boolean `_downloadFile`
returns, the updated manager state, the events emitted in order, the tasks it
added to the queue, and whether it actually consumed its oracles (issued the
HTTP fetch / the out-of-band rate-limit query) or deleted an undersized
partial file. -/
structure AttemptResult where
  success : Bool
  state : ManagerState
  events : List Event
  enqueued : List QueuedTask
  fetched : Bool
  rlChecked : Bool
  deletedFile : Bool
deriving DecidableEq, Repr

/-- The `rateLimited` listener registered in `bulkDownload` (lines 121-128):
if the queue is not paused, set the probe flag, pause, drop concurrency to 1
and schedule `queue.start()` in 60 seconds. -/
def rateLimitedHandler (s : ManagerState) : ManagerState :=
  if !s.queuePaused then
    { s with testRequest := true, queuePaused := true, queueConcurrency := 1,
             resumeAt := some (s.now + 60000) }
  else s

/-- Lines 147-156 of `_downloadFile` for the first attempt
(`options.remainingMirrors === undefined`): start from the configured mirror
unless it is banned, then the fallbacks, always excluding banned mirrors. -/
def resolveMirrorChain (preferred : Mirror) (banned : List Mirror) : List Mirror :=
  if banned.contains preferred then
    (getFallbackMirrors preferred).filter (fun m => !(banned.contains m))
  else
    preferred :: (getFallbackMirrors preferred).filter (fun m => !(banned.contains m))

/-- Lines 147-156 of `_downloadFile` in general: a retry carries
`remainingMirrors`, which is filtered against the banned set on entry. -/
def attemptChain (cfg : Config) (s : ManagerState)
    (remainingMirrors : Option (List Mirror)) : List Mirror :=
  match remainingMirrors with
  | some rm => rm.filter (fun m => !(s.bannedMirrors.contains m))
  | none => resolveMirrorChain cfg.mirror s.bannedMirrors

/-- The test `this.remainingDownloadsLimit != null && this.remainingDownloadsLimit <= 0`
(lines 172-175). -/
def limitExhausted (lim : Option Int) : Bool :=
  match lim with
  | some n => decide (n ≤ 0)
  | none => false

/-- The `x-ratelimit-remaining` test of lines 193-194: header present (and
numeric) with value at most 12. -/
def quotaLow (h : Option Nat) : Bool :=
  match h with
  | some v => decide (v ≤ 12)
  | none => false

/-- The catch clause of `_downloadFile` (lines 285-307): restore the probe
flag if this attempt was a probe, then either re-enqueue the item with the
remaining mirrors (emitting `retrying`) or, with no mirror left, emit the
per-item `error` event and leave the item in the collection. -/
def catchClause (s : ManagerState) (id : Nat) (isProbeRequest : Bool)
    (nextMirrors : List Mirror) (evAcc : List Event) (deleted : Bool) : AttemptResult :=
  let s1 := if isProbeRequest then { s with testRequest := true } else s
  if nextMirrors.length > 0 then
    { success := false, state := s1, events := evAcc ++ [Event.retrying id],
      enqueued := [QueuedTask.retryNext id nextMirrors],
      fetched := true, rlChecked := false, deletedFile := deleted }
  else
    { success := false, state := s1, events := evAcc ++ [Event.errored id],
      enqueued := [], fetched := true, rlChecked := false, deletedFile := deleted }

/-- The 429 branch (lines 201-230).  Unthrottled mirrors: plain re-enqueue of
the same item with the same options.  Throttled mirrors: if this was a probe
and the last out-of-band check is more than 5 seconds old (or never ran),
query the rate-limit endpoint — a reported 0 emits `dailyRateLimited`, any
other report (including an unusable response, `null`) replaces
`remainingDownloadsLimit`; then emit `rateLimited` when the queue is not
paused, and re-enqueue the item. -/
def handle429 (s : ManagerState) (id : Nat) (rm : Option (List Mirror))
    (currentMirror : Mirror) (isProbeRequest : Bool) (evAcc : List Event)
    (rlStatus : Option Int) : AttemptResult :=
  if isUnthrottled currentMirror then
    { success := false, state := s, events := evAcc,
      enqueued := [QueuedTask.plain id rm],
      fetched := true, rlChecked := false, deletedFile := false }
  else
    let doCheck := isProbeRequest &&
      (match s.lastDownloadsLimitCheck with
       | none => true
       | some l => decide (s.now - l > 5000))
    let s1 := if doCheck then { s with lastDownloadsLimitCheck := some s.now } else s
    let s2 := if doCheck && !(rlStatus == some 0) then
        { s1 with remainingDownloadsLimit := rlStatus }
      else s1
    let ev1 := if doCheck && rlStatus == some 0 then
        [Event.dailyRateLimited s1.pendingIds]
      else []
    let s3 := if !s2.queuePaused then rateLimitedHandler s2 else s2
    let ev2 := if !s2.queuePaused then [Event.rateLimited] else []
    { success := false, state := s3, events := evAcc ++ ev1 ++ ev2,
      enqueued := [QueuedTask.plain id rm],
      fetched := true, rlChecked := doCheck, deletedFile := false }

/-- The 403 / 451 branch (lines 231-246): 403 bans the current mirror; with
fallbacks left both statuses throw into the catch clause, otherwise 403 emits
`blocked` and 451 emits `unavailable`. -/
def handleBlock (s : ManagerState) (id : Nat) (status : Nat)
    (isProbeRequest : Bool) (currentMirror : Mirror) (nextMirrors : List Mirror)
    (evAcc : List Event) : AttemptResult :=
  let s1 := if status == 403 then
      { s with bannedMirrors :=
          if s.bannedMirrors.contains currentMirror then s.bannedMirrors
          else s.bannedMirrors ++ [currentMirror] }
    else s
  if nextMirrors.length > 0 then
    catchClause s1 id isProbeRequest nextMirrors evAcc false
  else if status == 403 then
    { success := false, state := s1, events := evAcc ++ [Event.blocked s1.pendingIds],
      enqueued := [], fetched := true, rlChecked := false, deletedFile := false }
  else
    { success := false, state := s1, events := evAcc ++ [Event.unavailable s1.pendingIds],
      enqueued := [], fetched := true, rlChecked := false, deletedFile := false }

/-- The 200 branch (lines 251-284): a probe reaching status 200 restores the
configured concurrency before the body is streamed; a null body or a body
below 1024 bytes throws into the catch clause (the undersized file is
deleted first); otherwise the downloaded counter is bumped, the tracked
allowance decremented and `downloaded` emitted. -/
def handle200 (cfg : Config) (s : ManagerState) (id : Nat)
    (isProbeRequest : Bool) (nextMirrors : List Mirror)
    (bodyBytes : Option Nat) (evAcc : List Event) : AttemptResult :=
  let s1 := if isProbeRequest then { s with queueConcurrency := configConcurrency cfg } else s
  match bodyBytes with
  | none => catchClause s1 id isProbeRequest nextMirrors evAcc false
  | some n =>
    if n < 1024 then
      catchClause s1 id isProbeRequest nextMirrors evAcc true
    else
      let s2 := { s1 with
        downloadedBeatMapSetSize := s1.downloadedBeatMapSetSize + 1,
        remainingDownloadsLimit := s1.remainingDownloadsLimit.map (fun k => k - 1) }
      { success := true, state := s2, events := evAcc ++ [Event.downloaded id],
        enqueued := [], fetched := true, rlChecked := false, deletedFile := false }

/-- The `x-ratelimit-remaining` guard of lines 192-198: the header check
fires (emits `rateLimited`) for a throttled-class mirror with a low quota
header while the queue is not paused. -/
def headerFires (currentMirror : Mirror) (resp : HttpResponse)
    (s1 : ManagerState) : Bool :=
  !(isUnthrottled currentMirror) && quotaLow resp.xRateLimitRemaining
    && !s1.queuePaused

/-- The status-code dispatch of lines 201-284. -/
def dispatchStatus (cfg : Config) (s2 : ManagerState) (id : Nat)
    (rm : Option (List Mirror)) (currentMirror : Mirror) (nextMirrors : List Mirror)
    (resp : HttpResponse) (rlStatus : Option Int) (isProbeRequest : Bool)
    (evAcc : List Event) : AttemptResult :=
  if resp.status == 429 then
    handle429 s2 id rm currentMirror isProbeRequest evAcc rlStatus
  else if resp.status == 403 || resp.status == 451 then
    handleBlock s2 id resp.status isProbeRequest currentMirror nextMirrors evAcc
  else if resp.status != 200 then
    catchClause s2 id isProbeRequest nextMirrors evAcc false
  else
    handle200 cfg s2 id isProbeRequest nextMirrors resp.bodyBytes evAcc

/-- The body of `_downloadFile` once the mirror chain is known to be
nonempty (lines 166-307): consume the probe flag, give up with
`dailyRateLimited` if the tracked allowance is exhausted (no fetch), then
fetch, run the quota-header check for throttled mirrors, and dispatch on the
status code. -/
def runAttempt (cfg : Config) (s0 : ManagerState) (id : Nat)
    (rm : Option (List Mirror)) (currentMirror : Mirror) (nextMirrors : List Mirror)
    (resp : HttpResponse) (rlStatus : Option Int) : AttemptResult :=
  let isProbeRequest := s0.testRequest
  let s1 : ManagerState := { s0 with testRequest := false }
  if limitExhausted s1.remainingDownloadsLimit then
    { success := false, state := s1, events := [Event.dailyRateLimited s1.pendingIds],
      enqueued := [], fetched := false, rlChecked := false, deletedFile := false }
  else
    let s2 := if headerFires currentMirror resp s1 then rateLimitedHandler s1 else s1
    let evAcc := Event.downloading id ::
      (if headerFires currentMirror resp s1 then [Event.rateLimited] else [])
    dispatchStatus cfg s2 id rm currentMirror nextMirrors resp rlStatus
      isProbeRequest evAcc

/-- Method `_downloadFile` (lines 143-311): resolve the mirror chain; an empty chain
emits the per-item `error` event and returns `false` without any fetch. -/
def runDownloadFile (cfg : Config) (s0 : ManagerState) (id : Nat)
    (rm : Option (List Mirror)) (resp : HttpResponse) (rlStatus : Option Int) :
    AttemptResult :=
  match attemptChain cfg s0 rm with
  | [] =>
    { success := false, state := s0, events := [Event.errored id],
      enqueued := [], fetched := false, rlChecked := false, deletedFile := false }
  | currentMirror :: nextMirrors =>
    runAttempt cfg s0 id rm currentMirror nextMirrors resp rlStatus

/-- The success wrapper of the `bulkDownload` task (lines 108-113) and of the
catch-clause retry (lines 294-300): `collection.beatMapSets.delete` runs only
when `_downloadFile` returned `true`. -/
def deleteOnSuccess (id : Nat) (r : AttemptResult) : AttemptResult :=
  if r.success then
    { r with state := { r.state with pendingIds := r.state.pendingIds.erase id } }
  else r

/-- The check `this.existingBeatmapsetIds?.has(beatMapSet.id)` (line 100): optional
chaining, so a missing pre-scan set never skips. -/
def skipHit (s : ManagerState) (id : Nat) : Bool :=
  match s.existingBeatmapsetIds with
  | some ex => ex.contains id
  | none => false

/-- Execution of one queued closure.  The `bulk` task first runs the
skip-existing check of lines 100-106 (both counters bumped, `skipped`
emitted, item removed, no fetch); `plain` discards the result of
`_downloadFile`, so no deletion happens on success. -/
def runTask (cfg : Config) (s : ManagerState) (t : QueuedTask)
    (resp : HttpResponse) (rlStatus : Option Int) : AttemptResult :=
  match t with
  | .bulk id =>
    if skipHit s id then
      { success := false,
        state := { s with skippedBeatMapSetSize := s.skippedBeatMapSetSize + 1,
                          downloadedBeatMapSetSize := s.downloadedBeatMapSetSize + 1,
                          pendingIds := s.pendingIds.erase id },
        events := [Event.skipped id], enqueued := [], fetched := false,
        rlChecked := false, deletedFile := false }
    else
      deleteOnSuccess id (runDownloadFile cfg s id none resp rlStatus)
  | .plain id rm => runDownloadFile cfg s id rm resp rlStatus
  | .retryNext id rm => deleteOnSuccess id (runDownloadFile cfg s id (some rm) resp rlStatus)

/-- Getter `getDownloadedBeatMapSetSize` (lines 131-133). -/
def getDownloadedBeatMapSetSize (s : ManagerState) : Nat :=
  s.downloadedBeatMapSetSize

/-- Getter `getSkippedBeatMapSetSize` (lines 135-137). -/
def getSkippedBeatMapSetSize (s : ManagerState) : Nat :=
  s.skippedBeatMapSetSize

/-- The whole system: manager state, the queue contents, how many fetches and
out-of-band checks have been issued (indices into the oracle scripts), the
accumulated event log and whether the idle `end` event has fired. -/
structure SysState where
  mgr : ManagerState
  queue : List QueuedTask
  fetchCount : Nat
  rlCheckCount : Nat
  eventLog : List Event
  endEmitted : Bool
deriving DecidableEq, Repr

/-- One scheduler step.  A paused queue starts no task: the only progress is
the pending 60-second timer firing (`queue.start()`), which advances the
clock to the scheduled instant.  Otherwise the head task runs to completion
(the single-threaded event loop serializes task callbacks), consuming its
oracles; an empty queue emits `end` with the not-downloaded items once. -/
def sysStep (cfg : Config) (fetchScript : Nat → HttpResponse)
    (rlScript : Nat → Option Int) (st : SysState) : SysState :=
  if st.mgr.queuePaused then
    match st.mgr.resumeAt with
    | some t =>
      { st with mgr := { st.mgr with queuePaused := false, resumeAt := none,
                                     now := max st.mgr.now t } }
    | none => st
  else
    match st.queue with
    | [] =>
      if st.endEmitted then st
      else { st with endEmitted := true,
                     eventLog := st.eventLog ++ [Event.ended st.mgr.pendingIds] }
    | t :: rest =>
      let r := runTask cfg st.mgr t (fetchScript st.fetchCount) (rlScript st.rlCheckCount)
      { mgr := r.state
        queue := rest ++ r.enqueued
        fetchCount := st.fetchCount + (if r.fetched then 1 else 0)
        rlCheckCount := st.rlCheckCount + (if r.rlChecked then 1 else 0)
        eventLog := st.eventLog ++ r.events
        endEmitted := st.endEmitted }

/-- Iterated scheduler. -/
def runSteps (cfg : Config) (fetchScript : Nat → HttpResponse)
    (rlScript : Nat → Option Int) : Nat → SysState → SysState
  | 0, st => st
  | n + 1, st => runSteps cfg fetchScript rlScript n (sysStep cfg fetchScript rlScript st)

/-- The state `bulkDownload` starts from: fresh counters, the pre-scanned
existing-id set, the allowance the constructor was given, no banned mirror,
one `bulk` task per pending item, queue running at the configured
concurrency. -/
def initSysState (cfg : Config) (rdl : Option Int) (ids : List Nat)
    (existing : Option (List Nat)) (startTime : Nat) : SysState :=
  { mgr := { downloadedBeatMapSetSize := 0, skippedBeatMapSetSize := 0,
             existingBeatmapsetIds := existing, remainingDownloadsLimit := rdl,
             lastDownloadsLimitCheck := none, testRequest := false,
             bannedMirrors := [], pendingIds := ids,
             queuePaused := false, queueConcurrency := configConcurrency cfg,
             resumeAt := none, now := startTime }
    queue := ids.map QueuedTask.bulk
    fetchCount := 0, rlCheckCount := 0, eventLog := [], endEmitted := false }

/-- Function `resolveMirrorChain` depends on the banned set only through its membership
predicate; this is the same computation parametrized by that predicate, used
to settle the chain properties by finite enumeration. -/
def resolveChainP (preferred : Mirror) (b : Mirror → Bool) : List Mirror :=
  if b preferred then (getFallbackMirrors preferred).filter (fun m => !b m)
  else preferred :: (getFallbackMirrors preferred).filter (fun m => !b m)

/-- A default configuration for concrete runs: Catboy mirror, parallel
downloads at concurrency 4. -/
def baseCfg : Config := { mirror := .Catboy, parallel := true, concurrency := 4 }

/-- A default manager state for concrete runs. -/
def baseState : ManagerState :=
  { downloadedBeatMapSetSize := 0, skippedBeatMapSetSize := 0,
    existingBeatmapsetIds := none, remainingDownloadsLimit := none,
    lastDownloadsLimitCheck := none, testRequest := false,
    bannedMirrors := [], pendingIds := [1], queuePaused := false,
    queueConcurrency := 4, resumeAt := none, now := 100000 }

/-- Scenario of claim C4: daily allowance 5, items 1..8 pending, every fetch
succeeding with a 2000-byte body. -/
def c4Fetch : Nat → HttpResponse :=
  fun _ => { status := 200, xRateLimitRemaining := none, bodyBytes := some 2000 }

/-- Final state of the C4 scenario after the whole batch is processed. -/
def c4Final : SysState :=
  runSteps baseCfg c4Fetch (fun _ => none) 9
    (initSysState baseCfg (some 5) [1, 2, 3, 4, 5, 6, 7, 8] none 1000)

/-- Configuration of the C6 run: Nerinyan (unthrottled) preferred. -/
def c6Cfg : Config := { mirror := .Nerinyan, parallel := true, concurrency := 4 }

/-- Fetch script of the C6 run: the first attempt gets 429, every further
attempt succeeds with a 2000-byte body. -/
def c6Fetch : Nat → HttpResponse :=
  fun n =>
    if n == 0 then { status := 429, xRateLimitRemaining := none, bodyBytes := none }
    else { status := 200, xRateLimitRemaining := none, bodyBytes := some 2000 }

/-- Final state of the C6 run (one item; 429 then success on retry). -/
def c6Final : SysState :=
  runSteps c6Cfg c6Fetch (fun _ => none) 3 (initSysState c6Cfg none [1] none 1000)

/-- Fetch script of the C7 scenario: three 429 responses in a row from the
throttled mirror with quota header values 20, 10 and 5. -/
def c7Fetch : Nat → HttpResponse :=
  fun n =>
    if n == 0 then { status := 429, xRateLimitRemaining := some 20, bodyBytes := none }
    else if n == 1 then { status := 429, xRateLimitRemaining := some 10, bodyBytes := none }
    else { status := 429, xRateLimitRemaining := some 5, bodyBytes := none }

/-- State of the C7 scenario run after 5 scheduler steps (three attempts,
two timer resumes). -/
def c7Final : SysState :=
  runSteps baseCfg c7Fetch (fun _ => none) 5 (initSysState baseCfg none [1] none 1000)

/-- A state with every mirror banned (for exercising the empty chain). -/
def sAllBanned : ManagerState := { baseState with bannedMirrors := mirrorRegistry }

/-- A successful response: status 200, 2000-byte body. -/
def resp200 : HttpResponse := { status := 200, xRateLimitRemaining := none, bodyBytes := some 2000 }

/-- A 200 response whose streamed body is under the 1024-byte threshold. -/
def resp200small : HttpResponse := { status := 200, xRateLimitRemaining := none, bodyBytes := some 100 }

/-- A bare 429 response. -/
def resp429 : HttpResponse := { status := 429, xRateLimitRemaining := none, bodyBytes := none }

/-- A 403 response. -/
def resp403 : HttpResponse := { status := 403, xRateLimitRemaining := none, bodyBytes := none }

/-- A 451 response. -/
def resp451 : HttpResponse := { status := 451, xRateLimitRemaining := none, bodyBytes := none }

/-- A 200 response carrying a quota header of 5 (below the low-water mark). -/
def resp200lowQuota : HttpResponse :=
  { status := 200, xRateLimitRemaining := some 5, bodyBytes := some 2000 }

/-- A response observed during the pause: 200 with a 2000-byte body and a
quota header of 5. -/
def sPausedResp : HttpResponse :=
  { status := 200, xRateLimitRemaining := some 5, bodyBytes := some 2000 }

/-- A paused mid-cooldown state as left by the rate-limit handler, with an
attempt still in flight: paused, concurrency 1, resume scheduled. -/
def sPausedMidCooldown : ManagerState :=
  { baseState with queuePaused := true, queueConcurrency := 1,
                   resumeAt := some 161000, now := 101000 }

/-- The state right after a cooldown resume: not paused, concurrency still 1,
the next request flagged as a probe. -/
def sAfterResume : ManagerState :=
  { baseState with queueConcurrency := 1, testRequest := true, now := 161000 }

/-! ### Basic lemmas about the handlers -/

theorem mirror_contains_iff (l : List Mirror) (m : Mirror) :
    l.contains m = true ↔ m ∈ l := by
  simp [List.contains_iff_exists_mem_beq]

theorem mirror_contains_false_iff (l : List Mirror) (m : Mirror) :
    l.contains m = false ↔ m ∉ l := by
  rw [← mirror_contains_iff]
  cases h : l.contains m <;> simp

theorem nat_contains_iff (l : List Nat) (m : Nat) :
    l.contains m = true ↔ m ∈ l := by
  simp [List.contains_iff_exists_mem_beq]

@[simp] theorem rlh_remaining (s : ManagerState) :
    (rateLimitedHandler s).remainingDownloadsLimit = s.remainingDownloadsLimit := by
  unfold rateLimitedHandler; split <;> rfl

@[simp] theorem rlh_banned (s : ManagerState) :
    (rateLimitedHandler s).bannedMirrors = s.bannedMirrors := by
  unfold rateLimitedHandler; split <;> rfl

@[simp] theorem rlh_pending (s : ManagerState) :
    (rateLimitedHandler s).pendingIds = s.pendingIds := by
  unfold rateLimitedHandler; split <;> rfl

@[simp] theorem rlh_now (s : ManagerState) :
    (rateLimitedHandler s).now = s.now := by
  unfold rateLimitedHandler; split <;> rfl

@[simp] theorem rlh_downloaded (s : ManagerState) :
    (rateLimitedHandler s).downloadedBeatMapSetSize = s.downloadedBeatMapSetSize := by
  unfold rateLimitedHandler; split <;> rfl

@[simp] theorem rlh_skipped (s : ManagerState) :
    (rateLimitedHandler s).skippedBeatMapSetSize = s.skippedBeatMapSetSize := by
  unfold rateLimitedHandler; split <;> rfl

@[simp] theorem rlh_lastCheck (s : ManagerState) :
    (rateLimitedHandler s).lastDownloadsLimitCheck = s.lastDownloadsLimitCheck := by
  unfold rateLimitedHandler; split <;> rfl

@[simp] theorem rlh_paused (s : ManagerState) :
    (rateLimitedHandler s).queuePaused = true := by
  unfold rateLimitedHandler
  rcases h : s.queuePaused <;> simp [h]

theorem rlh_conc (s : ManagerState) :
    (rateLimitedHandler s).queueConcurrency =
      if s.queuePaused then s.queueConcurrency else 1 := by
  unfold rateLimitedHandler
  rcases h : s.queuePaused <;> simp [h]

theorem rlh_testRequest (s : ManagerState) :
    (rateLimitedHandler s).testRequest =
      if s.queuePaused then s.testRequest else true := by
  unfold rateLimitedHandler
  rcases h : s.queuePaused <;> simp [h]

theorem rlh_resumeAt (s : ManagerState) :
    (rateLimitedHandler s).resumeAt =
      if s.queuePaused then s.resumeAt else some (s.now + 60000) := by
  unfold rateLimitedHandler
  rcases h : s.queuePaused <;> simp [h]

@[simp] theorem catch_success (s : ManagerState) (id : Nat) (p : Bool)
    (nm : List Mirror) (ev : List Event) (d : Bool) :
    (catchClause s id p nm ev d).success = false := by
  simp only [catchClause]; split <;> rfl

@[simp] theorem catch_fetched (s : ManagerState) (id : Nat) (p : Bool)
    (nm : List Mirror) (ev : List Event) (d : Bool) :
    (catchClause s id p nm ev d).fetched = true := by
  simp only [catchClause]; split <;> rfl

@[simp] theorem catch_rlChecked (s : ManagerState) (id : Nat) (p : Bool)
    (nm : List Mirror) (ev : List Event) (d : Bool) :
    (catchClause s id p nm ev d).rlChecked = false := by
  simp only [catchClause]; split <;> rfl

@[simp] theorem catch_deleted (s : ManagerState) (id : Nat) (p : Bool)
    (nm : List Mirror) (ev : List Event) (d : Bool) :
    (catchClause s id p nm ev d).deletedFile = d := by
  simp only [catchClause]; split <;> rfl

theorem catch_state (s : ManagerState) (id : Nat) (p : Bool)
    (nm : List Mirror) (ev : List Event) (d : Bool) :
    (catchClause s id p nm ev d).state =
      if p then { s with testRequest := true } else s := by
  simp only [catchClause]
  split <;> rfl

@[simp] theorem catch_banned (s : ManagerState) (id : Nat) (p : Bool)
    (nm : List Mirror) (ev : List Event) (d : Bool) :
    (catchClause s id p nm ev d).state.bannedMirrors = s.bannedMirrors := by
  rw [catch_state]; rcases p <;> rfl

@[simp] theorem catch_remaining (s : ManagerState) (id : Nat) (p : Bool)
    (nm : List Mirror) (ev : List Event) (d : Bool) :
    (catchClause s id p nm ev d).state.remainingDownloadsLimit =
      s.remainingDownloadsLimit := by
  rw [catch_state]; rcases p <;> rfl

@[simp] theorem catch_conc (s : ManagerState) (id : Nat) (p : Bool)
    (nm : List Mirror) (ev : List Event) (d : Bool) :
    (catchClause s id p nm ev d).state.queueConcurrency = s.queueConcurrency := by
  rw [catch_state]; rcases p <;> rfl

@[simp] theorem catch_paused (s : ManagerState) (id : Nat) (p : Bool)
    (nm : List Mirror) (ev : List Event) (d : Bool) :
    (catchClause s id p nm ev d).state.queuePaused = s.queuePaused := by
  rw [catch_state]; rcases p <;> rfl

@[simp] theorem catch_pending (s : ManagerState) (id : Nat) (p : Bool)
    (nm : List Mirror) (ev : List Event) (d : Bool) :
    (catchClause s id p nm ev d).state.pendingIds = s.pendingIds := by
  rw [catch_state]; rcases p <;> rfl

@[simp] theorem catch_downloaded (s : ManagerState) (id : Nat) (p : Bool)
    (nm : List Mirror) (ev : List Event) (d : Bool) :
    (catchClause s id p nm ev d).state.downloadedBeatMapSetSize =
      s.downloadedBeatMapSetSize := by
  rw [catch_state]; rcases p <;> rfl

@[simp] theorem catch_resumeAt (s : ManagerState) (id : Nat) (p : Bool)
    (nm : List Mirror) (ev : List Event) (d : Bool) :
    (catchClause s id p nm ev d).state.resumeAt = s.resumeAt := by
  rw [catch_state]; rcases p <;> rfl

theorem catch_of_cons (s : ManagerState) (id : Nat) (p : Bool)
    (m : Mirror) (ms : List Mirror) (ev : List Event) (d : Bool) :
    (catchClause s id p (m :: ms) ev d).enqueued = [QueuedTask.retryNext id (m :: ms)] ∧
    (catchClause s id p (m :: ms) ev d).events = ev ++ [Event.retrying id] := by
  simp only [catchClause]
  simp

theorem catch_of_nil (s : ManagerState) (id : Nat) (p : Bool)
    (ev : List Event) (d : Bool) :
    (catchClause s id p [] ev d).enqueued = [] ∧
    (catchClause s id p [] ev d).events = ev ++ [Event.errored id] := by
  simp only [catchClause]
  simp

@[simp] theorem h429_success (s : ManagerState) (id : Nat) (rm : Option (List Mirror))
    (cm : Mirror) (p : Bool) (ev : List Event) (rl : Option Int) :
    (handle429 s id rm cm p ev rl).success = false := by
  simp only [handle429]; split_ifs <;> rfl

@[simp] theorem h429_enqueued (s : ManagerState) (id : Nat) (rm : Option (List Mirror))
    (cm : Mirror) (p : Bool) (ev : List Event) (rl : Option Int) :
    (handle429 s id rm cm p ev rl).enqueued = [QueuedTask.plain id rm] := by
  simp only [handle429]; split_ifs <;> rfl

@[simp] theorem h429_fetched (s : ManagerState) (id : Nat) (rm : Option (List Mirror))
    (cm : Mirror) (p : Bool) (ev : List Event) (rl : Option Int) :
    (handle429 s id rm cm p ev rl).fetched = true := by
  simp only [handle429]; split_ifs <;> rfl

@[simp] theorem h429_banned (s : ManagerState) (id : Nat) (rm : Option (List Mirror))
    (cm : Mirror) (p : Bool) (ev : List Event) (rl : Option Int) :
    (handle429 s id rm cm p ev rl).state.bannedMirrors = s.bannedMirrors := by
  simp only [handle429]; split_ifs <;> simp

@[simp] theorem h429_pending (s : ManagerState) (id : Nat) (rm : Option (List Mirror))
    (cm : Mirror) (p : Bool) (ev : List Event) (rl : Option Int) :
    (handle429 s id rm cm p ev rl).state.pendingIds = s.pendingIds := by
  simp only [handle429]; split_ifs <;> simp

@[simp] theorem h429_downloaded (s : ManagerState) (id : Nat) (rm : Option (List Mirror))
    (cm : Mirror) (p : Bool) (ev : List Event) (rl : Option Int) :
    (handle429 s id rm cm p ev rl).state.downloadedBeatMapSetSize =
      s.downloadedBeatMapSetSize := by
  simp only [handle429]; split_ifs <;> simp

@[simp] theorem h429_now (s : ManagerState) (id : Nat) (rm : Option (List Mirror))
    (cm : Mirror) (p : Bool) (ev : List Event) (rl : Option Int) :
    (handle429 s id rm cm p ev rl).state.now = s.now := by
  simp only [handle429]; split_ifs <;> simp

theorem h429_conc (s : ManagerState) (id : Nat) (rm : Option (List Mirror))
    (cm : Mirror) (p : Bool) (ev : List Event) (rl : Option Int) :
    (handle429 s id rm cm p ev rl).state.queueConcurrency =
      if isUnthrottled cm then s.queueConcurrency
      else if s.queuePaused then s.queueConcurrency else 1 := by
  simp only [handle429]
  split_ifs with h1 h2 h3 h4 h5 h6 h7 <;>
    simp_all [rlh_conc] <;> split_ifs <;> simp_all

theorem h429_paused (s : ManagerState) (id : Nat) (rm : Option (List Mirror))
    (cm : Mirror) (p : Bool) (ev : List Event) (rl : Option Int) :
    (handle429 s id rm cm p ev rl).state.queuePaused =
      if isUnthrottled cm then s.queuePaused else true := by
  simp only [handle429]
  split_ifs with h1 h2 h3 h4 h5 h6 h7 <;>
    simp_all <;> split_ifs <;> simp_all

@[simp] theorem hb_success (s : ManagerState) (id : Nat) (status : Nat) (p : Bool)
    (cm : Mirror) (nm : List Mirror) (ev : List Event) :
    (handleBlock s id status p cm nm ev).success = false := by
  simp only [handleBlock]; split_ifs <;> simp

@[simp] theorem hb_conc (s : ManagerState) (id : Nat) (status : Nat) (p : Bool)
    (cm : Mirror) (nm : List Mirror) (ev : List Event) :
    (handleBlock s id status p cm nm ev).state.queueConcurrency =
      s.queueConcurrency := by
  simp only [handleBlock]; split_ifs <;> simp

@[simp] theorem hb_paused (s : ManagerState) (id : Nat) (status : Nat) (p : Bool)
    (cm : Mirror) (nm : List Mirror) (ev : List Event) :
    (handleBlock s id status p cm nm ev).state.queuePaused = s.queuePaused := by
  simp only [handleBlock]; split_ifs <;> simp

@[simp] theorem hb_remaining (s : ManagerState) (id : Nat) (status : Nat) (p : Bool)
    (cm : Mirror) (nm : List Mirror) (ev : List Event) :
    (handleBlock s id status p cm nm ev).state.remainingDownloadsLimit =
      s.remainingDownloadsLimit := by
  simp only [handleBlock]; split_ifs <;> simp

@[simp] theorem hb_pending (s : ManagerState) (id : Nat) (status : Nat) (p : Bool)
    (cm : Mirror) (nm : List Mirror) (ev : List Event) :
    (handleBlock s id status p cm nm ev).state.pendingIds = s.pendingIds := by
  simp only [handleBlock]; split_ifs <;> simp

@[simp] theorem hb_downloaded (s : ManagerState) (id : Nat) (status : Nat) (p : Bool)
    (cm : Mirror) (nm : List Mirror) (ev : List Event) :
    (handleBlock s id status p cm nm ev).state.downloadedBeatMapSetSize =
      s.downloadedBeatMapSetSize := by
  simp only [handleBlock]; split_ifs <;> simp

theorem hb_banned_mono (s : ManagerState) (id : Nat) (status : Nat) (p : Bool)
    (cm : Mirror) (nm : List Mirror) (ev : List Event) (m : Mirror)
    (h : m ∈ s.bannedMirrors) :
    m ∈ (handleBlock s id status p cm nm ev).state.bannedMirrors := by
  simp only [handleBlock]
  split_ifs <;> simp_all

theorem hb_banned_403 (s : ManagerState) (id : Nat) (p : Bool)
    (cm : Mirror) (nm : List Mirror) (ev : List Event) :
    cm ∈ (handleBlock s id 403 p cm nm ev).state.bannedMirrors := by
  simp only [handleBlock]
  have hmem : cm ∈ (if s.bannedMirrors.contains cm then s.bannedMirrors
      else s.bannedMirrors ++ [cm]) := by
    split_ifs with hc
    · exact (mirror_contains_iff _ _).mp hc
    · simp
  split_ifs <;> simp_all

theorem hb_banned_451 (s : ManagerState) (id : Nat) (p : Bool)
    (cm : Mirror) (nm : List Mirror) (ev : List Event) :
    (handleBlock s id 451 p cm nm ev).state.bannedMirrors = s.bannedMirrors := by
  simp only [handleBlock]
  split_ifs <;> simp_all

theorem h200_conc (cfg : Config) (s : ManagerState) (id : Nat) (p : Bool)
    (nm : List Mirror) (bb : Option Nat) (ev : List Event) :
    (handle200 cfg s id p nm bb ev).state.queueConcurrency =
      if p then configConcurrency cfg else s.queueConcurrency := by
  simp only [handle200]
  rcases p <;> rcases bb with _ | n <;> simp <;> split_ifs <;> simp

@[simp] theorem h200_paused (cfg : Config) (s : ManagerState) (id : Nat) (p : Bool)
    (nm : List Mirror) (bb : Option Nat) (ev : List Event) :
    (handle200 cfg s id p nm bb ev).state.queuePaused = s.queuePaused := by
  simp only [handle200]
  rcases p <;> rcases bb with _ | n <;> simp <;> split_ifs <;> simp

@[simp] theorem h200_banned (cfg : Config) (s : ManagerState) (id : Nat) (p : Bool)
    (nm : List Mirror) (bb : Option Nat) (ev : List Event) :
    (handle200 cfg s id p nm bb ev).state.bannedMirrors = s.bannedMirrors := by
  simp only [handle200]
  rcases p <;> rcases bb with _ | n <;> simp <;> split_ifs <;> simp

@[simp] theorem h200_pending (cfg : Config) (s : ManagerState) (id : Nat) (p : Bool)
    (nm : List Mirror) (bb : Option Nat) (ev : List Event) :
    (handle200 cfg s id p nm bb ev).state.pendingIds = s.pendingIds := by
  simp only [handle200]
  rcases p <;> rcases bb with _ | n <;> simp <;> split_ifs <;> simp

theorem h200_success_remaining (cfg : Config) (s : ManagerState) (id : Nat) (p : Bool)
    (nm : List Mirror) (bb : Option Nat) (ev : List Event)
    (h : (handle200 cfg s id p nm bb ev).success = true) :
    (handle200 cfg s id p nm bb ev).state.remainingDownloadsLimit =
      s.remainingDownloadsLimit.map (fun k => k - 1) := by
  simp only [handle200] at h ⊢
  rcases p <;> rcases bb with _ | n <;> simp_all <;> split_ifs at h ⊢ <;> simp_all

/-! ### Composition lemmas about one whole attempt -/

theorem hb_banned_ne403 (s : ManagerState) (id status : Nat) (p : Bool)
    (cm : Mirror) (nm : List Mirror) (ev : List Event)
    (hstatus : (status == 403) = false) :
    (handleBlock s id status p cm nm ev).state.bannedMirrors = s.bannedMirrors := by
  simp only [handleBlock, hstatus]
  split_ifs <;> simp_all

@[simp] theorem runAttempt_pending (cfg : Config) (s : ManagerState) (id : Nat)
    (rm : Option (List Mirror)) (cm : Mirror) (nm : List Mirror)
    (resp : HttpResponse) (rl : Option Int) :
    (runAttempt cfg s id rm cm nm resp rl).state.pendingIds = s.pendingIds := by
  simp only [runAttempt, dispatchStatus]
  split_ifs <;> simp

theorem runAttempt_banned_of_ne403 (cfg : Config) (s : ManagerState) (id : Nat)
    (rm : Option (List Mirror)) (cm : Mirror) (nm : List Mirror)
    (resp : HttpResponse) (rl : Option Int) (h : resp.status ≠ 403) :
    (runAttempt cfg s id rm cm nm resp rl).state.bannedMirrors = s.bannedMirrors := by
  have h403 : (resp.status == 403) = false := by simpa using h
  simp only [runAttempt, dispatchStatus]
  split_ifs <;> simp [hb_banned_ne403, h403]

theorem runAttempt_banned_mono (cfg : Config) (s : ManagerState) (id : Nat)
    (rm : Option (List Mirror)) (cm : Mirror) (nm : List Mirror)
    (resp : HttpResponse) (rl : Option Int) (m : Mirror) (h : m ∈ s.bannedMirrors) :
    m ∈ (runAttempt cfg s id rm cm nm resp rl).state.bannedMirrors := by
  by_cases h403 : resp.status = 403
  · simp only [runAttempt, dispatchStatus]
    split_ifs <;> try simpa using h
    all_goals
      refine hb_banned_mono _ _ _ _ _ _ _ m ?_
    all_goals simpa using h
  · rw [runAttempt_banned_of_ne403 cfg s id rm cm nm resp rl h403]
    exact h

theorem runAttempt_success_remaining (cfg : Config) (s : ManagerState) (id : Nat)
    (rm : Option (List Mirror)) (cm : Mirror) (nm : List Mirror)
    (resp : HttpResponse) (rl : Option Int)
    (h : (runAttempt cfg s id rm cm nm resp rl).success = true) :
    resp.status = 200 ∧
    (runAttempt cfg s id rm cm nm resp rl).state.remainingDownloadsLimit =
      s.remainingDownloadsLimit.map (fun k => k - 1) := by
  simp only [runAttempt, dispatchStatus] at h ⊢
  split_ifs at h ⊢ <;> try simp_all
  all_goals rw [h200_success_remaining _ _ _ _ _ _ _ h]
  all_goals simp

theorem runAttempt_conc_classify (cfg : Config) (s : ManagerState) (id : Nat)
    (rm : Option (List Mirror)) (cm : Mirror) (nm : List Mirror)
    (resp : HttpResponse) (rl : Option Int) :
    (runAttempt cfg s id rm cm nm resp rl).state.queueConcurrency = s.queueConcurrency
    ∨ ((runAttempt cfg s id rm cm nm resp rl).state.queueConcurrency = 1 ∧
       (runAttempt cfg s id rm cm nm resp rl).state.queuePaused = true)
    ∨ (s.testRequest = true ∧ resp.status = 200 ∧
       (runAttempt cfg s id rm cm nm resp rl).state.queueConcurrency =
         configConcurrency cfg) := by
  simp only [runAttempt, dispatchStatus]
  split_ifs <;>
    simp_all [headerFires, h429_conc, h429_paused, h200_conc, rlh_conc, catch_conc,
      catch_paused, hb_conc, hb_paused] <;>
    split_ifs <;> simp_all <;>
    rcases hp : s.testRequest <;> simp_all <;>
    rcases hs : decide (resp.status = 200) <;> simp_all

theorem runDownloadFile_of_chain (cfg : Config) (s : ManagerState) (id : Nat)
    (rm : Option (List Mirror)) (cm : Mirror) (nm : List Mirror)
    (resp : HttpResponse) (rl : Option Int)
    (hc : attemptChain cfg s rm = cm :: nm) :
    runDownloadFile cfg s id rm resp rl = runAttempt cfg s id rm cm nm resp rl := by
  unfold runDownloadFile
  rw [hc]

theorem runDownloadFile_of_nil (cfg : Config) (s : ManagerState) (id : Nat)
    (rm : Option (List Mirror)) (resp : HttpResponse) (rl : Option Int)
    (hc : attemptChain cfg s rm = []) :
    runDownloadFile cfg s id rm resp rl =
      { success := false, state := s, events := [Event.errored id],
        enqueued := [], fetched := false, rlChecked := false, deletedFile := false } := by
  unfold runDownloadFile
  rw [hc]

theorem runDownloadFile_banned_mono (cfg : Config) (s : ManagerState) (id : Nat)
    (rm : Option (List Mirror)) (resp : HttpResponse) (rl : Option Int)
    (m : Mirror) (h : m ∈ s.bannedMirrors) :
    m ∈ (runDownloadFile cfg s id rm resp rl).state.bannedMirrors := by
  cases hc : attemptChain cfg s rm with
  | nil => rw [runDownloadFile_of_nil cfg s id rm resp rl hc]; exact h
  | cons cm nm =>
    rw [runDownloadFile_of_chain cfg s id rm cm nm resp rl hc]
    exact runAttempt_banned_mono cfg s id rm cm nm resp rl m h

theorem runDownloadFile_success_remaining (cfg : Config) (s : ManagerState) (id : Nat)
    (rm : Option (List Mirror)) (resp : HttpResponse) (rl : Option Int)
    (h : (runDownloadFile cfg s id rm resp rl).success = true) :
    resp.status = 200 ∧
    (runDownloadFile cfg s id rm resp rl).state.remainingDownloadsLimit =
      s.remainingDownloadsLimit.map (fun k => k - 1) := by
  cases hc : attemptChain cfg s rm with
  | nil => rw [runDownloadFile_of_nil cfg s id rm resp rl hc] at h; simp at h
  | cons cm nm =>
    rw [runDownloadFile_of_chain cfg s id rm cm nm resp rl hc] at h ⊢
    exact runAttempt_success_remaining cfg s id rm cm nm resp rl h

theorem runDownloadFile_conc_classify (cfg : Config) (s : ManagerState) (id : Nat)
    (rm : Option (List Mirror)) (resp : HttpResponse) (rl : Option Int) :
    (runDownloadFile cfg s id rm resp rl).state.queueConcurrency = s.queueConcurrency
    ∨ ((runDownloadFile cfg s id rm resp rl).state.queueConcurrency = 1 ∧
       (runDownloadFile cfg s id rm resp rl).state.queuePaused = true)
    ∨ (s.testRequest = true ∧ resp.status = 200 ∧
       (runDownloadFile cfg s id rm resp rl).state.queueConcurrency =
         configConcurrency cfg) := by
  cases hc : attemptChain cfg s rm with
  | nil => rw [runDownloadFile_of_nil cfg s id rm resp rl hc]; left; rfl
  | cons cm nm =>
    rw [runDownloadFile_of_chain cfg s id rm cm nm resp rl hc]
    exact runAttempt_conc_classify cfg s id rm cm nm resp rl

@[simp] theorem runDownloadFile_pending (cfg : Config) (s : ManagerState) (id : Nat)
    (rm : Option (List Mirror)) (resp : HttpResponse) (rl : Option Int) :
    (runDownloadFile cfg s id rm resp rl).state.pendingIds = s.pendingIds := by
  cases hc : attemptChain cfg s rm with
  | nil => rw [runDownloadFile_of_nil cfg s id rm resp rl hc]
  | cons cm nm => rw [runDownloadFile_of_chain cfg s id rm cm nm resp rl hc]; simp

@[simp] theorem dos_success (id : Nat) (r : AttemptResult) :
    (deleteOnSuccess id r).success = r.success := by
  unfold deleteOnSuccess; split <;> rfl

@[simp] theorem dos_banned (id : Nat) (r : AttemptResult) :
    (deleteOnSuccess id r).state.bannedMirrors = r.state.bannedMirrors := by
  unfold deleteOnSuccess; split <;> rfl

@[simp] theorem dos_remaining (id : Nat) (r : AttemptResult) :
    (deleteOnSuccess id r).state.remainingDownloadsLimit =
      r.state.remainingDownloadsLimit := by
  unfold deleteOnSuccess; split <;> rfl

@[simp] theorem dos_conc (id : Nat) (r : AttemptResult) :
    (deleteOnSuccess id r).state.queueConcurrency = r.state.queueConcurrency := by
  unfold deleteOnSuccess; split <;> rfl

@[simp] theorem dos_paused (id : Nat) (r : AttemptResult) :
    (deleteOnSuccess id r).state.queuePaused = r.state.queuePaused := by
  unfold deleteOnSuccess; split <;> rfl

@[simp] theorem dos_events (id : Nat) (r : AttemptResult) :
    (deleteOnSuccess id r).events = r.events := by
  unfold deleteOnSuccess; split <;> rfl

@[simp] theorem dos_enqueued (id : Nat) (r : AttemptResult) :
    (deleteOnSuccess id r).enqueued = r.enqueued := by
  unfold deleteOnSuccess; split <;> rfl

@[simp] theorem dos_fetched (id : Nat) (r : AttemptResult) :
    (deleteOnSuccess id r).fetched = r.fetched := by
  unfold deleteOnSuccess; split <;> rfl

theorem runTask_banned_mono (cfg : Config) (s : ManagerState) (t : QueuedTask)
    (resp : HttpResponse) (rl : Option Int) (m : Mirror) (h : m ∈ s.bannedMirrors) :
    m ∈ (runTask cfg s t resp rl).state.bannedMirrors := by
  cases t with
  | bulk id =>
    by_cases hs : skipHit s id = true
    · simp only [runTask, if_pos hs]
      exact h
    · simp only [runTask, if_neg hs, dos_banned]
      exact runDownloadFile_banned_mono cfg s id none resp rl m h
  | plain id rm => exact runDownloadFile_banned_mono cfg s id rm resp rl m h
  | retryNext id rm =>
    simp only [runTask, dos_banned]
    exact runDownloadFile_banned_mono cfg s id (some rm) resp rl m h

theorem runTask_success_remaining (cfg : Config) (s : ManagerState) (t : QueuedTask)
    (resp : HttpResponse) (rl : Option Int)
    (h : (runTask cfg s t resp rl).success = true) :
    (runTask cfg s t resp rl).state.remainingDownloadsLimit =
      s.remainingDownloadsLimit.map (fun k => k - 1) := by
  cases t with
  | bulk id =>
    by_cases hs : skipHit s id = true
    · simp [runTask, if_pos hs] at h
    · simp only [runTask, if_neg hs, dos_remaining] at h ⊢
      exact (runDownloadFile_success_remaining cfg s id none resp rl (by simpa using h)).2
  | plain id rm => exact (runDownloadFile_success_remaining cfg s id rm resp rl h).2
  | retryNext id rm =>
    simp only [runTask, dos_remaining] at h ⊢
    exact (runDownloadFile_success_remaining cfg s id (some rm) resp rl (by simpa using h)).2

theorem sysStep_paused_no_task (cfg : Config) (fetchScript : Nat → HttpResponse)
    (rlScript : Nat → Option Int) (st : SysState) (h : st.mgr.queuePaused = true) :
    (sysStep cfg fetchScript rlScript st).queue = st.queue ∧
    (sysStep cfg fetchScript rlScript st).fetchCount = st.fetchCount ∧
    (sysStep cfg fetchScript rlScript st).eventLog = st.eventLog := by
  simp only [sysStep, h]
  cases st.mgr.resumeAt <;> simp

theorem sysStep_timer (cfg : Config) (fetchScript : Nat → HttpResponse)
    (rlScript : Nat → Option Int) (st : SysState) (t : Nat)
    (hp : st.mgr.queuePaused = true) (hr : st.mgr.resumeAt = some t) :
    (sysStep cfg fetchScript rlScript st).mgr.queuePaused = false ∧
    t ≤ (sysStep cfg fetchScript rlScript st).mgr.now := by
  simp only [sysStep, hp, hr]
  simp

@[simp] theorem catch_now (s : ManagerState) (id : Nat) (p : Bool)
    (nm : List Mirror) (ev : List Event) (d : Bool) :
    (catchClause s id p nm ev d).state.now = s.now := by
  rw [catch_state]; rcases p <;> rfl

@[simp] theorem catch_lastCheck (s : ManagerState) (id : Nat) (p : Bool)
    (nm : List Mirror) (ev : List Event) (d : Bool) :
    (catchClause s id p nm ev d).state.lastDownloadsLimitCheck =
      s.lastDownloadsLimitCheck := by
  rw [catch_state]; rcases p <;> rfl

@[simp] theorem catch_skipped (s : ManagerState) (id : Nat) (p : Bool)
    (nm : List Mirror) (ev : List Event) (d : Bool) :
    (catchClause s id p nm ev d).state.skippedBeatMapSetSize =
      s.skippedBeatMapSetSize := by
  rw [catch_state]; rcases p <;> rfl

@[simp] theorem hb_resumeAt (s : ManagerState) (id : Nat) (status : Nat) (p : Bool)
    (cm : Mirror) (nm : List Mirror) (ev : List Event) :
    (handleBlock s id status p cm nm ev).state.resumeAt = s.resumeAt := by
  simp only [handleBlock]; split_ifs <;> simp

@[simp] theorem hb_now (s : ManagerState) (id : Nat) (status : Nat) (p : Bool)
    (cm : Mirror) (nm : List Mirror) (ev : List Event) :
    (handleBlock s id status p cm nm ev).state.now = s.now := by
  simp only [handleBlock]; split_ifs <;> simp

@[simp] theorem hb_rlChecked (s : ManagerState) (id : Nat) (status : Nat) (p : Bool)
    (cm : Mirror) (nm : List Mirror) (ev : List Event) :
    (handleBlock s id status p cm nm ev).rlChecked = false := by
  simp only [handleBlock]; split_ifs <;> simp

@[simp] theorem h200_resumeAt (cfg : Config) (s : ManagerState) (id : Nat) (p : Bool)
    (nm : List Mirror) (bb : Option Nat) (ev : List Event) :
    (handle200 cfg s id p nm bb ev).state.resumeAt = s.resumeAt := by
  simp only [handle200]
  rcases p <;> rcases bb with _ | n <;> simp <;> split_ifs <;> simp

@[simp] theorem h200_now (cfg : Config) (s : ManagerState) (id : Nat) (p : Bool)
    (nm : List Mirror) (bb : Option Nat) (ev : List Event) :
    (handle200 cfg s id p nm bb ev).state.now = s.now := by
  simp only [handle200]
  rcases p <;> rcases bb with _ | n <;> simp <;> split_ifs <;> simp

@[simp] theorem h200_rlChecked (cfg : Config) (s : ManagerState) (id : Nat) (p : Bool)
    (nm : List Mirror) (bb : Option Nat) (ev : List Event) :
    (handle200 cfg s id p nm bb ev).rlChecked = false := by
  simp only [handle200]
  rcases p <;> rcases bb with _ | n <;> simp <;> split_ifs <;> simp

@[simp] theorem h200_lastCheck (cfg : Config) (s : ManagerState) (id : Nat) (p : Bool)
    (nm : List Mirror) (bb : Option Nat) (ev : List Event) :
    (handle200 cfg s id p nm bb ev).state.lastDownloadsLimitCheck =
      s.lastDownloadsLimitCheck := by
  simp only [handle200]
  rcases p <;> rcases bb with _ | n <;> simp <;> split_ifs <;> simp

@[simp] theorem h429_lastCheck_preserved (s : ManagerState) (id : Nat)
    (rm : Option (List Mirror)) (cm : Mirror) (ev : List Event) (rl : Option Int) :
    (handle429 s id rm cm false ev rl).state.lastDownloadsLimitCheck =
      s.lastDownloadsLimitCheck := by
  simp only [handle429]; split_ifs <;> simp_all

theorem catch_events_mono (s : ManagerState) (id : Nat) (p : Bool)
    (nm : List Mirror) (ev : List Event) (d : Bool) (e : Event) (h : e ∈ ev) :
    e ∈ (catchClause s id p nm ev d).events := by
  simp only [catchClause]
  split_ifs <;> simp [h]

theorem h429_events_mono (s : ManagerState) (id : Nat) (rm : Option (List Mirror))
    (cm : Mirror) (p : Bool) (ev : List Event) (rl : Option Int) (e : Event)
    (h : e ∈ ev) :
    e ∈ (handle429 s id rm cm p ev rl).events := by
  simp only [handle429]
  split_ifs <;> simp [h]

theorem hb_events_mono (s : ManagerState) (id : Nat) (status : Nat) (p : Bool)
    (cm : Mirror) (nm : List Mirror) (ev : List Event) (e : Event) (h : e ∈ ev) :
    e ∈ (handleBlock s id status p cm nm ev).events := by
  simp only [handleBlock]
  split_ifs <;> first
    | exact catch_events_mono _ _ _ _ _ _ e h
    | simp [h]

theorem h200_events_mono (cfg : Config) (s : ManagerState) (id : Nat) (p : Bool)
    (nm : List Mirror) (bb : Option Nat) (ev : List Event) (e : Event) (h : e ∈ ev) :
    e ∈ (handle200 cfg s id p nm bb ev).events := by
  rcases bb with _ | n <;> simp only [handle200]
  · exact catch_events_mono _ _ _ _ _ _ e h
  · split_ifs <;> first
      | exact catch_events_mono _ _ _ _ _ _ e h
      | simp [h]

/-- The throttled 429 handler on an unpaused queue: pause, concurrency 1,
probe flag set, resume scheduled 60 seconds out, `rateLimited` emitted and
the item re-enqueued with the same options. -/
theorem h429_throttled_not_paused (s : ManagerState) (id : Nat)
    (rm : Option (List Mirror)) (cm : Mirror) (p : Bool) (ev : List Event)
    (rl : Option Int) (hcm : isUnthrottled cm = false) (hp : s.queuePaused = false) :
    (handle429 s id rm cm p ev rl).state.queuePaused = true ∧
    (handle429 s id rm cm p ev rl).state.queueConcurrency = 1 ∧
    (handle429 s id rm cm p ev rl).state.testRequest = true ∧
    (handle429 s id rm cm p ev rl).state.resumeAt = some (s.now + 60000) ∧
    Event.rateLimited ∈ (handle429 s id rm cm p ev rl).events ∧
    (handle429 s id rm cm p ev rl).enqueued = [QueuedTask.plain id rm] := by
  simp only [handle429, hcm]
  split_ifs <;> simp_all [rlh_conc, rlh_testRequest, rlh_resumeAt]

/-- The throttled 429 handler on an already-paused queue leaves the pause /
concurrency / probe / timer state alone. -/
theorem h429_paused_frame (s : ManagerState) (id : Nat)
    (rm : Option (List Mirror)) (cm : Mirror) (p : Bool) (ev : List Event)
    (rl : Option Int) (hp : s.queuePaused = true) :
    (handle429 s id rm cm p ev rl).state.queuePaused = true ∧
    (handle429 s id rm cm p ev rl).state.queueConcurrency = s.queueConcurrency ∧
    (handle429 s id rm cm p ev rl).state.testRequest = s.testRequest ∧
    (handle429 s id rm cm p ev rl).state.resumeAt = s.resumeAt ∧
    (handle429 s id rm cm p ev rl).enqueued = [QueuedTask.plain id rm] := by
  simp only [handle429]
  split_ifs <;> simp_all [rlh_conc, rlh_testRequest, rlh_resumeAt]

/-- The mirror chain only depends on the banned set. -/
theorem attemptChain_congr (cfg : Config) (s s2 : ManagerState)
    (rm : Option (List Mirror)) (h : s2.bannedMirrors = s.bannedMirrors) :
    attemptChain cfg s2 rm = attemptChain cfg s rm := by
  cases rm <;> simp [attemptChain, resolveMirrorChain, h]

/-- A banned mirror never appears in any attempt chain. -/
theorem chain_skips_banned (cfg : Config) (s : ManagerState)
    (rm : Option (List Mirror)) (m : Mirror) (hm : m ∈ s.bannedMirrors) :
    m ∉ attemptChain cfg s rm := by
  intro hmem
  cases rm with
  | some l =>
    simp only [attemptChain] at hmem
    have h2 := (List.mem_filter.mp hmem).2
    simp at h2
    exact h2 hm
  | none =>
    simp only [attemptChain, resolveMirrorChain] at hmem
    split_ifs at hmem with hpref
    · have h2 := (List.mem_filter.mp hmem).2
      simp at h2
      exact h2 hm
    · rcases List.mem_cons.mp hmem with heq | hmem2
      · subst heq
        exact hpref ((mirror_contains_iff _ _).mpr hm)
      · have h2 := (List.mem_filter.mp hmem2).2
        simp at h2
        exact h2 hm

/-- The rate-limit query fires only on a probe 429 from a throttled mirror
when the previous query is more than 5 seconds old; it stamps the current
time. -/
theorem runAttempt_rlChecked (cfg : Config) (s : ManagerState) (id : Nat)
    (rm : Option (List Mirror)) (cm : Mirror) (nm : List Mirror)
    (resp : HttpResponse) (rl : Option Int)
    (h : (runAttempt cfg s id rm cm nm resp rl).rlChecked = true) :
    s.testRequest = true ∧ resp.status = 429 ∧ isUnthrottled cm = false ∧
    (s.lastDownloadsLimitCheck = none ∨
      ∃ l, s.lastDownloadsLimitCheck = some l ∧ s.now - l > 5000) ∧
    (runAttempt cfg s id rm cm nm resp rl).state.lastDownloadsLimitCheck =
      some s.now := by
  simp only [runAttempt, dispatchStatus] at h ⊢
  split_ifs at h ⊢ <;> try simp_all
  all_goals
    simp only [handle429] at h ⊢
    split_ifs at h ⊢ <;>
      simp_all <;>
      cases hl : s.lastDownloadsLimitCheck <;> simp_all

@[simp] theorem runAttempt_now (cfg : Config) (s : ManagerState) (id : Nat)
    (rm : Option (List Mirror)) (cm : Mirror) (nm : List Mirror)
    (resp : HttpResponse) (rl : Option Int) :
    (runAttempt cfg s id rm cm nm resp rl).state.now = s.now := by
  simp only [runAttempt, dispatchStatus]
  split_ifs <;> simp

@[simp] theorem runDownloadFile_now (cfg : Config) (s : ManagerState) (id : Nat)
    (rm : Option (List Mirror)) (resp : HttpResponse) (rl : Option Int) :
    (runDownloadFile cfg s id rm resp rl).state.now = s.now := by
  cases hc : attemptChain cfg s rm with
  | nil => rw [runDownloadFile_of_nil cfg s id rm resp rl hc]
  | cons cm nm => rw [runDownloadFile_of_chain cfg s id rm cm nm resp rl hc]; simp

@[simp] theorem dos_now (id : Nat) (r : AttemptResult) :
    (deleteOnSuccess id r).state.now = r.state.now := by
  unfold deleteOnSuccess; split <;> rfl

@[simp] theorem runTask_now (cfg : Config) (s : ManagerState) (t : QueuedTask)
    (resp : HttpResponse) (rl : Option Int) :
    (runTask cfg s t resp rl).state.now = s.now := by
  cases t with
  | bulk id =>
    by_cases hs : skipHit s id = true
    · simp [runTask, if_pos hs]
    · simp [runTask, if_neg hs]
  | plain id rm => simp [runTask]
  | retryNext id rm => simp [runTask]

/-- The scheduler clock never goes backwards. -/
theorem sysStep_now_mono (cfg : Config) (fetchScript : Nat → HttpResponse)
    (rlScript : Nat → Option Int) (st : SysState) :
    st.mgr.now ≤ (sysStep cfg fetchScript rlScript st).mgr.now := by
  by_cases hp : st.mgr.queuePaused = true
  · simp only [sysStep, hp, if_true]
    cases hr : st.mgr.resumeAt <;> simp
  · cases hq : st.queue with
    | nil =>
      simp only [sysStep, hp, hq]
      split_ifs <;> simp_all
    | cons t rest =>
      simp only [sysStep, hp, hq]
      split_ifs <;> simp_all

/-! ### The claims -/

theorem chainP_spec : ∀ (preferred : Mirror) (b : Mirror → Bool),
    (b preferred = false →
      resolveChainP preferred b =
        preferred :: mirrorRegistry.filter (fun m => m != preferred && !b m))
    ∧ (b preferred = true →
      resolveChainP preferred b = mirrorRegistry.filter (fun m => !b m))
    ∧ (∀ m ∈ resolveChainP preferred b, b m = false)
    ∧ (resolveChainP preferred b).Nodup := by decide

theorem resolveMirrorChain_eq_chainP (preferred : Mirror) (banned : List Mirror) :
    resolveMirrorChain preferred banned =
      resolveChainP preferred (fun m => banned.contains m) := rfl

/-- C1: Mirror chain resolution.  For every preferred mirror and banned set:
when the preferred mirror is not banned the first-attempt chain is the
preferred mirror followed by all other non-banned mirrors in registry
declaration order; when it is banned the chain is the registry order with all
banned mirrors removed; the chain never contains a banned mirror and never
contains duplicates; and an empty chain makes `_downloadFile` emit the
per-item error outcome and return without issuing any fetch. -/
theorem C1_mirror_chain_resolution :
    (∀ (preferred : Mirror) (banned : List Mirror),
      (preferred ∉ banned →
        resolveMirrorChain preferred banned =
          preferred ::
            mirrorRegistry.filter (fun m => m != preferred && !(banned.contains m)))
      ∧ (preferred ∈ banned →
        resolveMirrorChain preferred banned =
          mirrorRegistry.filter (fun m => !(banned.contains m)))
      ∧ (∀ m ∈ resolveMirrorChain preferred banned, m ∉ banned)
      ∧ (resolveMirrorChain preferred banned).Nodup)
    ∧ (∀ (cfg : Config) (s : ManagerState) (id : Nat) (rm : Option (List Mirror))
        (resp : HttpResponse) (rl : Option Int),
        attemptChain cfg s rm = [] →
        (runDownloadFile cfg s id rm resp rl).events = [Event.errored id] ∧
        (runDownloadFile cfg s id rm resp rl).success = false ∧
        (runDownloadFile cfg s id rm resp rl).fetched = false ∧
        (runDownloadFile cfg s id rm resp rl).enqueued = []) := by
  constructor
  · intro preferred banned
    have hs := chainP_spec preferred (fun m => banned.contains m)
    rw [resolveMirrorChain_eq_chainP]
    refine ⟨?_, ?_, ?_, hs.2.2.2⟩
    · intro hnot
      exact hs.1 ((mirror_contains_false_iff banned preferred).mpr hnot)
    · intro hmem
      exact hs.2.1 ((mirror_contains_iff banned preferred).mpr hmem)
    · intro m hm
      exact (mirror_contains_false_iff banned m).mp (hs.2.2.1 m hm)
  · intro cfg s id rm resp rl hc
    rw [runDownloadFile_of_nil cfg s id rm resp rl hc]
    exact ⟨rfl, rfl, rfl, rfl⟩

/-- Witness for C1 at concrete inputs: preferred Catboy with Nerinyan banned,
and an all-banned state producing the empty chain. -/
theorem C1_mirror_chain_resolution_witness :
    (Mirror.Catboy ∉ ([Mirror.Nerinyan] : List Mirror) ∧
     resolveMirrorChain Mirror.Catboy [Mirror.Nerinyan] =
       Mirror.Catboy :: mirrorRegistry.filter
         (fun m => m != Mirror.Catboy &&
           !(([Mirror.Nerinyan] : List Mirror).contains m)))
    ∧ (attemptChain baseCfg sAllBanned none = [] ∧
       (runDownloadFile baseCfg sAllBanned 1 none resp200 none).events =
         [Event.errored 1] ∧
       (runDownloadFile baseCfg sAllBanned 1 none resp200 none).fetched = false) :=
  ⟨⟨by decide, (C1_mirror_chain_resolution.1 Mirror.Catboy [Mirror.Nerinyan]).1 (by decide)⟩,
   by decide,
   (C1_mirror_chain_resolution.2 baseCfg sAllBanned 1 none resp200 none (by decide)).1,
   (C1_mirror_chain_resolution.2 baseCfg sAllBanned 1 none resp200 none (by decide)).2.2.1⟩

/-- C10: an item whose id is in the pre-scanned existing set is handled by
the queue task as a skip: the `skipped` event is emitted, no network request
is issued, nothing is re-enqueued, the item leaves the pending collection,
and both the skipped and the downloaded counter are incremented by 1, so the
public downloaded-count getter includes skipped items. -/
theorem C10_skip_existing :
    ∀ (cfg : Config) (s : ManagerState) (id : Nat) (resp : HttpResponse)
      (rl : Option Int) (ex : List Nat),
      s.existingBeatmapsetIds = some ex → id ∈ ex →
      (runTask cfg s (QueuedTask.bulk id) resp rl).events = [Event.skipped id] ∧
      (runTask cfg s (QueuedTask.bulk id) resp rl).fetched = false ∧
      (runTask cfg s (QueuedTask.bulk id) resp rl).enqueued = [] ∧
      (runTask cfg s (QueuedTask.bulk id) resp rl).state.skippedBeatMapSetSize =
        s.skippedBeatMapSetSize + 1 ∧
      (runTask cfg s (QueuedTask.bulk id) resp rl).state.downloadedBeatMapSetSize =
        s.downloadedBeatMapSetSize + 1 ∧
      (runTask cfg s (QueuedTask.bulk id) resp rl).state.pendingIds =
        s.pendingIds.erase id ∧
      getDownloadedBeatMapSetSize (runTask cfg s (QueuedTask.bulk id) resp rl).state =
        getDownloadedBeatMapSetSize s + 1 := by
  intro cfg s id resp rl ex hex hid
  have hs : skipHit s id = true := by
    simp only [skipHit, hex]
    exact (nat_contains_iff ex id).mpr hid
  simp [runTask, if_pos hs, getDownloadedBeatMapSetSize]

/-- Witness for C10: item 7 in the pre-scanned set of a concrete state. -/
theorem C10_skip_existing_witness :
    (runTask baseCfg { baseState with existingBeatmapsetIds := some [7], pendingIds := [7] }
        (QueuedTask.bulk 7) resp200 none).events = [Event.skipped 7] ∧
    (runTask baseCfg { baseState with existingBeatmapsetIds := some [7], pendingIds := [7] }
        (QueuedTask.bulk 7) resp200 none).fetched = false :=
  ⟨(C10_skip_existing baseCfg
      { baseState with existingBeatmapsetIds := some [7], pendingIds := [7] }
      7 resp200 none [7] rfl (by decide)).1,
   (C10_skip_existing baseCfg
      { baseState with existingBeatmapsetIds := some [7], pendingIds := [7] }
      7 resp200 none [7] rfl (by decide)).2.1⟩

/-- A 429 from a throttled mirror with the queue not paused: the attempt
pauses the queue, drops concurrency to 1, sets the probe flag, schedules the
resume 60 seconds out, emits `rateLimited` and re-enqueues the item. -/
theorem runAttempt_throttled_429 (cfg : Config) (s : ManagerState) (id : Nat)
    (rm : Option (List Mirror)) (cm : Mirror) (nm : List Mirror)
    (resp : HttpResponse) (rl : Option Int)
    (hcm : isUnthrottled cm = false) (hst : resp.status = 429)
    (hl : limitExhausted s.remainingDownloadsLimit = false)
    (hp : s.queuePaused = false) :
    (runAttempt cfg s id rm cm nm resp rl).state.queuePaused = true ∧
    (runAttempt cfg s id rm cm nm resp rl).state.queueConcurrency = 1 ∧
    (runAttempt cfg s id rm cm nm resp rl).state.testRequest = true ∧
    (runAttempt cfg s id rm cm nm resp rl).state.resumeAt = some (s.now + 60000) ∧
    Event.rateLimited ∈ (runAttempt cfg s id rm cm nm resp rl).events ∧
    (runAttempt cfg s id rm cm nm resp rl).enqueued = [QueuedTask.plain id rm] ∧
    (runAttempt cfg s id rm cm nm resp rl).success = false := by
  have h429 : (resp.status == 429) = true := by simp [hst]
  by_cases hf : headerFires cm resp { s with testRequest := false } = true
  · have heq : runAttempt cfg s id rm cm nm resp rl =
        handle429 (rateLimitedHandler { s with testRequest := false }) id rm cm
          s.testRequest [Event.downloading id, Event.rateLimited] rl := by
      simp [runAttempt, dispatchStatus, hl, hf, h429]
    rw [heq]
    have hp2 : (rateLimitedHandler
        ({ s with testRequest := false } : ManagerState)).queuePaused = true :=
      rlh_paused _
    obtain ⟨c1, c2, c3, c4, c5⟩ := h429_paused_frame
      (rateLimitedHandler { s with testRequest := false }) id rm cm s.testRequest
      [Event.downloading id, Event.rateLimited] rl hp2
    refine ⟨c1, ?_, ?_, ?_, ?_, c5, h429_success _ _ _ _ _ _ _⟩
    · rw [c2, rlh_conc]
      simp [hp]
    · rw [c3, rlh_testRequest]
      simp [hp]
    · rw [c4, rlh_resumeAt]
      simp [hp]
    · exact h429_events_mono _ _ _ _ _ _ _ _ (by simp)
  · have heq : runAttempt cfg s id rm cm nm resp rl =
        handle429 { s with testRequest := false } id rm cm s.testRequest
          [Event.downloading id] rl := by
      simp [runAttempt, dispatchStatus, hl, h429, hf]
    rw [heq]
    obtain ⟨c1, c2, c3, c4, c5, c6⟩ := h429_throttled_not_paused
      ({ s with testRequest := false } : ManagerState) id rm cm s.testRequest
      [Event.downloading id] rl hcm hp
    exact ⟨c1, c2, c3, c4, c5, c6, h429_success _ _ _ _ _ _ _⟩

/-- C2: after an HTTP 429 from a throttled-class mirror while the queue is
not paused, the queue pauses, concurrency drops to 1, the next request after
resume is flagged as a probe, and a resume is scheduled 60 seconds out
(first conjunct).  A paused queue starts no task (second conjunct); the only
way it unpauses is the timer firing at or after the scheduled instant (third
conjunct); and the concurrency value ever changes only by the drop to 1 under
a pause or by a probe attempt that received status 200 — i.e. a non-429
response — restoring the configured concurrency (fourth conjunct). -/
theorem C2_throttled_429_backoff_cycle :
    (∀ (cfg : Config) (s : ManagerState) (id : Nat) (rm : Option (List Mirror))
       (cm : Mirror) (nm : List Mirror) (resp : HttpResponse) (rl : Option Int),
       attemptChain cfg s rm = cm :: nm →
       isUnthrottled cm = false →
       resp.status = 429 →
       limitExhausted s.remainingDownloadsLimit = false →
       s.queuePaused = false →
       (runDownloadFile cfg s id rm resp rl).state.queuePaused = true ∧
       (runDownloadFile cfg s id rm resp rl).state.queueConcurrency = 1 ∧
       (runDownloadFile cfg s id rm resp rl).state.testRequest = true ∧
       (runDownloadFile cfg s id rm resp rl).state.resumeAt = some (s.now + 60000) ∧
       Event.rateLimited ∈ (runDownloadFile cfg s id rm resp rl).events ∧
       (runDownloadFile cfg s id rm resp rl).enqueued = [QueuedTask.plain id rm] ∧
       (runDownloadFile cfg s id rm resp rl).success = false)
    ∧ (∀ (cfg : Config) (fetchScript : Nat → HttpResponse)
         (rlScript : Nat → Option Int) (st : SysState),
         st.mgr.queuePaused = true →
         (sysStep cfg fetchScript rlScript st).queue = st.queue ∧
         (sysStep cfg fetchScript rlScript st).fetchCount = st.fetchCount)
    ∧ (∀ (cfg : Config) (fetchScript : Nat → HttpResponse)
         (rlScript : Nat → Option Int) (st : SysState) (t : Nat),
         st.mgr.queuePaused = true → st.mgr.resumeAt = some t →
         (sysStep cfg fetchScript rlScript st).mgr.queuePaused = false ∧
         t ≤ (sysStep cfg fetchScript rlScript st).mgr.now)
    ∧ (∀ (cfg : Config) (s : ManagerState) (id : Nat) (rm : Option (List Mirror))
         (resp : HttpResponse) (rl : Option Int),
         (runDownloadFile cfg s id rm resp rl).state.queueConcurrency ≠
           s.queueConcurrency →
         ((runDownloadFile cfg s id rm resp rl).state.queueConcurrency = 1 ∧
          (runDownloadFile cfg s id rm resp rl).state.queuePaused = true) ∨
         (s.testRequest = true ∧ resp.status = 200 ∧ (429 : Nat) ≠ 200 ∧
          (runDownloadFile cfg s id rm resp rl).state.queueConcurrency =
            configConcurrency cfg)) := by
  refine ⟨?_, ?_, ?_, ?_⟩
  · intro cfg s id rm cm nm resp rl hc hcm hst hl hp
    rw [runDownloadFile_of_chain cfg s id rm cm nm resp rl hc]
    exact runAttempt_throttled_429 cfg s id rm cm nm resp rl hcm hst hl hp
  · intro cfg fetchScript rlScript st h
    have := sysStep_paused_no_task cfg fetchScript rlScript st h
    exact ⟨this.1, this.2.1⟩
  · intro cfg fetchScript rlScript st t hp hr
    exact sysStep_timer cfg fetchScript rlScript st t hp hr
  · intro cfg s id rm resp rl hne
    rcases runDownloadFile_conc_classify cfg s id rm resp rl with h | h | h
    · exact absurd h hne
    · exact Or.inl h
    · exact Or.inr ⟨h.1, h.2.1, by omega, h.2.2⟩

/-- Witness for C2 at concrete inputs: the default state attempting on
Catboy, receiving a bare 429. -/
theorem C2_throttled_429_backoff_cycle_witness :
    (runDownloadFile baseCfg baseState 1 none resp429 none).state.queuePaused = true ∧
    (runDownloadFile baseCfg baseState 1 none resp429 none).state.queueConcurrency = 1 ∧
    (runDownloadFile baseCfg baseState 1 none resp429 none).state.testRequest = true ∧
    (runDownloadFile baseCfg baseState 1 none resp429 none).state.resumeAt =
      some (baseState.now + 60000) ∧
    Event.rateLimited ∈ (runDownloadFile baseCfg baseState 1 none resp429 none).events ∧
    (runDownloadFile baseCfg baseState 1 none resp429 none).enqueued =
      [QueuedTask.plain 1 none] ∧
    (runDownloadFile baseCfg baseState 1 none resp429 none).success = false :=
  C2_throttled_429_backoff_cycle.1 baseCfg baseState 1 none Mirror.Catboy
    [Mirror.Nerinyan, Mirror.OsuDirect, Mirror.Sayobot, Mirror.Beatconnect,
      Mirror.Nekoha] resp429 none (by decide) (by decide) (by decide) (by decide)
    (by decide)

/-- The throttled 429 handler on a probe with no prior check: the allowance
query runs; 0 is terminal, anything else replaces the tracked count; the
queue ends at concurrency 1 unless it was already paused. -/
theorem h429_probe_check (s : ManagerState) (id : Nat) (rm : Option (List Mirror))
    (cm : Mirror) (ev : List Event) (rl : Option Int)
    (hcm : isUnthrottled cm = false) (hw : s.lastDownloadsLimitCheck = none) :
    (handle429 s id rm cm true ev rl).rlChecked = true ∧
    (rl = some 0 →
      Event.dailyRateLimited s.pendingIds ∈ (handle429 s id rm cm true ev rl).events) ∧
    (rl ≠ some 0 →
      (handle429 s id rm cm true ev rl).state.remainingDownloadsLimit = rl) ∧
    (handle429 s id rm cm true ev rl).state.queueConcurrency =
      (if s.queuePaused then s.queueConcurrency else 1) := by
  simp only [handle429, hcm, hw]
  split_ifs <;> simp_all [rlh_conc]

/-- A probe 429 from a throttled mirror with a fresh check window: the
out-of-band allowance check runs; a reported 0 emits `dailyRateLimited` for
all still-pending items, any other report replaces the tracked count; the
queue is left paused at concurrency 1 (when it was running) — the configured
concurrency is not restored in this path. -/
theorem runAttempt_probe429_check (cfg : Config) (s : ManagerState) (id : Nat)
    (rm : Option (List Mirror)) (cm : Mirror) (nm : List Mirror)
    (resp : HttpResponse) (rl : Option Int)
    (hcm : isUnthrottled cm = false) (hst : resp.status = 429)
    (hl : limitExhausted s.remainingDownloadsLimit = false)
    (hpr : s.testRequest = true) (hw : s.lastDownloadsLimitCheck = none) :
    (runAttempt cfg s id rm cm nm resp rl).rlChecked = true ∧
    (rl = some 0 →
      Event.dailyRateLimited s.pendingIds ∈ (runAttempt cfg s id rm cm nm resp rl).events) ∧
    (rl ≠ some 0 →
      (runAttempt cfg s id rm cm nm resp rl).state.remainingDownloadsLimit = rl) ∧
    (runAttempt cfg s id rm cm nm resp rl).state.queueConcurrency =
      (if s.queuePaused then s.queueConcurrency else 1) := by
  have h429 : (resp.status == 429) = true := by simp [hst]
  by_cases hf : headerFires cm resp { s with testRequest := false } = true
  · have hp : s.queuePaused = false := by
      simp [headerFires] at hf
      simpa using hf.2
    have heq : runAttempt cfg s id rm cm nm resp rl =
        handle429 (rateLimitedHandler { s with testRequest := false }) id rm cm
          s.testRequest [Event.downloading id, Event.rateLimited] rl := by
      simp [runAttempt, dispatchStatus, hl, hf, h429]
    rw [heq, hpr]
    have := h429_probe_check
      (rateLimitedHandler { s with testRequest := false }) id rm cm
      [Event.downloading id, Event.rateLimited] rl hcm (by simp [hw])
    refine ⟨this.1, ?_, ?_, ?_⟩
    · intro h0
      simpa using this.2.1 h0
    · intro h0
      simpa using this.2.2.1 h0
    · rw [this.2.2.2]
      simp [hp, rlh_conc]
  · have heq : runAttempt cfg s id rm cm nm resp rl =
        handle429 { s with testRequest := false } id rm cm s.testRequest
          [Event.downloading id] rl := by
      simp [runAttempt, dispatchStatus, hl, h429, hf]
    rw [heq, hpr]
    have := h429_probe_check ({ s with testRequest := false } : ManagerState) id rm cm
      [Event.downloading id] rl hcm (by simpa using hw)
    exact ⟨this.1, this.2.1, this.2.2.1, this.2.2.2⟩

/-- C3 (amended): when a probe request receives 429 from a throttled-class
mirror, the out-of-band allowance check runs at most once per 5-second window
(it runs only when the previous check is over 5000 ms old, stamping the
current clock, and the clock never runs backwards); a reported 0 remaining
allowance emits `dailyRateLimited` carrying all still-pending items;
otherwise the reported value replaces the tracked remaining count.  The
configured concurrency is NOT restored by this path: the queue is left at
concurrency 1 (pausing again if it was running); concurrency is restored
only when a probe attempt returns HTTP 200. -/
theorem C3_probe_allowance_check :
    (∀ (cfg : Config) (s : ManagerState) (id : Nat) (rm : Option (List Mirror))
       (cm : Mirror) (nm : List Mirror) (resp : HttpResponse) (rl : Option Int),
       attemptChain cfg s rm = cm :: nm →
       (runDownloadFile cfg s id rm resp rl).rlChecked = true →
       s.testRequest = true ∧ resp.status = 429 ∧ isUnthrottled cm = false ∧
       (s.lastDownloadsLimitCheck = none ∨
         ∃ l, s.lastDownloadsLimitCheck = some l ∧ s.now - l > 5000) ∧
       (runDownloadFile cfg s id rm resp rl).state.lastDownloadsLimitCheck =
         some s.now)
    ∧ (∀ (cfg : Config) (fetchScript : Nat → HttpResponse)
         (rlScript : Nat → Option Int) (st : SysState),
         st.mgr.now ≤ (sysStep cfg fetchScript rlScript st).mgr.now)
    ∧ (∀ (cfg : Config) (s : ManagerState) (id : Nat) (rm : Option (List Mirror))
         (cm : Mirror) (nm : List Mirror) (resp : HttpResponse) (rl : Option Int),
         attemptChain cfg s rm = cm :: nm →
         isUnthrottled cm = false → resp.status = 429 →
         limitExhausted s.remainingDownloadsLimit = false →
         s.testRequest = true → s.lastDownloadsLimitCheck = none →
         (runDownloadFile cfg s id rm resp rl).rlChecked = true ∧
         (rl = some 0 → Event.dailyRateLimited s.pendingIds ∈
           (runDownloadFile cfg s id rm resp rl).events) ∧
         (rl ≠ some 0 →
           (runDownloadFile cfg s id rm resp rl).state.remainingDownloadsLimit = rl) ∧
         (runDownloadFile cfg s id rm resp rl).state.queueConcurrency =
           (if s.queuePaused then s.queueConcurrency else 1)) := by
  refine ⟨?_, ?_, ?_⟩
  · intro cfg s id rm cm nm resp rl hc h
    rw [runDownloadFile_of_chain cfg s id rm cm nm resp rl hc] at h ⊢
    exact runAttempt_rlChecked cfg s id rm cm nm resp rl h
  · intro cfg fetchScript rlScript st
    exact sysStep_now_mono cfg fetchScript rlScript st
  · intro cfg s id rm cm nm resp rl hc hcm hst hl hpr hw
    rw [runDownloadFile_of_chain cfg s id rm cm nm resp rl hc]
    exact runAttempt_probe429_check cfg s id rm cm nm resp rl hcm hst hl hpr hw

/-- Counterexample to C3 as stated: at a concrete post-resume probe getting
429 with the allowance endpoint reporting 50, the tracked count becomes 50
but the configured concurrency (4) is not restored — the queue ends paused at
concurrency 1. -/
theorem C3_counterexample :
    (runDownloadFile baseCfg sAfterResume 1 none resp429 (some 50)).rlChecked = true ∧
    (runDownloadFile baseCfg sAfterResume 1 none resp429 (some 50)).state.remainingDownloadsLimit = some 50 ∧
    (runDownloadFile baseCfg sAfterResume 1 none resp429 (some 50)).state.queueConcurrency = 1 ∧
    (runDownloadFile baseCfg sAfterResume 1 none resp429 (some 50)).state.queuePaused = true ∧
    configConcurrency baseCfg = 4 := by decide

/-- Witness for C3 at concrete inputs: the post-resume probe state getting a
429 with the allowance endpoint reporting 7. -/
theorem C3_probe_allowance_check_witness :
    (runDownloadFile baseCfg sAfterResume 1 none resp429 (some 7)).rlChecked = true ∧
    (some 7 = (some 0 : Option Int) → Event.dailyRateLimited sAfterResume.pendingIds ∈
      (runDownloadFile baseCfg sAfterResume 1 none resp429 (some 7)).events) ∧
    ((some 7 : Option Int) ≠ some 0 →
      (runDownloadFile baseCfg sAfterResume 1 none resp429 (some 7)).state.remainingDownloadsLimit = some 7) ∧
    (runDownloadFile baseCfg sAfterResume 1 none resp429 (some 7)).state.queueConcurrency =
      (if sAfterResume.queuePaused then sAfterResume.queueConcurrency else 1) :=
  C3_probe_allowance_check.2.2 baseCfg sAfterResume 1 none Mirror.Catboy
    [Mirror.Nerinyan, Mirror.OsuDirect, Mirror.Sayobot, Mirror.Beatconnect,
      Mirror.Nekoha] resp429 (some 7) (by decide) (by decide) (by decide)
    (by decide) (by decide) (by decide)

/-- An attempt starting while the tracked allowance is exhausted: no fetch,
`dailyRateLimited` with all still-pending items, nothing re-enqueued. -/
theorem runAttempt_limit_exhausted (cfg : Config) (s : ManagerState) (id : Nat)
    (rm : Option (List Mirror)) (cm : Mirror) (nm : List Mirror)
    (resp : HttpResponse) (rl : Option Int) (n : Int)
    (hn : s.remainingDownloadsLimit = some n) (hle : n ≤ 0) :
    (runAttempt cfg s id rm cm nm resp rl).fetched = false ∧
    (runAttempt cfg s id rm cm nm resp rl).events =
      [Event.dailyRateLimited s.pendingIds] ∧
    (runAttempt cfg s id rm cm nm resp rl).enqueued = [] ∧
    (runAttempt cfg s id rm cm nm resp rl).success = false := by
  have hl : limitExhausted s.remainingDownloadsLimit = true := by
    simp [limitExhausted, hn, hle]
  simp only [runAttempt]
  split_ifs with h1 <;> simp_all

/-- C4: every successful download decrements the tracked remaining allowance
by exactly 1 when it is tracked (first conjunct); an item beginning an
attempt with the tracked allowance at 0 (or below) is declared
daily-limit-exhausted without any network request, and nothing is re-enqueued
for it (second conjunct); in the scenario with tracked allowance 5 and items
1..8 pending, exactly 5 fetches happen, 5 items are downloaded, and items
6, 7, 8 remain pending, declared daily-limit-exhausted with no further
network attempt (third conjunct). -/
theorem C4_allowance_decrement :
    (∀ (cfg : Config) (s : ManagerState) (t : QueuedTask) (resp : HttpResponse)
       (rl : Option Int) (n : Int),
       s.remainingDownloadsLimit = some n →
       (runTask cfg s t resp rl).success = true →
       (runTask cfg s t resp rl).state.remainingDownloadsLimit = some (n - 1))
    ∧ (∀ (cfg : Config) (s : ManagerState) (id : Nat) (rm : Option (List Mirror))
         (cm : Mirror) (nm : List Mirror) (resp : HttpResponse) (rl : Option Int)
         (n : Int),
         attemptChain cfg s rm = cm :: nm →
         s.remainingDownloadsLimit = some n → n ≤ 0 →
         (runDownloadFile cfg s id rm resp rl).fetched = false ∧
         (runDownloadFile cfg s id rm resp rl).events =
           [Event.dailyRateLimited s.pendingIds] ∧
         (runDownloadFile cfg s id rm resp rl).enqueued = [] ∧
         (runDownloadFile cfg s id rm resp rl).success = false)
    ∧ (c4Final.fetchCount = 5 ∧
       c4Final.mgr.downloadedBeatMapSetSize = 5 ∧
       c4Final.mgr.pendingIds = [6, 7, 8] ∧
       c4Final.mgr.remainingDownloadsLimit = some 0 ∧
       Event.dailyRateLimited [6, 7, 8] ∈ c4Final.eventLog) := by
  refine ⟨?_, ?_, ?_⟩
  · intro cfg s t resp rl n hn h
    rw [runTask_success_remaining cfg s t resp rl h, hn]
    rfl
  · intro cfg s id rm cm nm resp rl n hc hn hle
    rw [runDownloadFile_of_chain cfg s id rm cm nm resp rl hc]
    exact runAttempt_limit_exhausted cfg s id rm cm nm resp rl n hn hle
  · decide

/-- Witness for C4 at concrete inputs: a successful download from allowance 5
and an attempt at allowance 0. -/
theorem C4_allowance_decrement_witness :
    (runTask baseCfg { baseState with remainingDownloadsLimit := some 5 }
        (QueuedTask.bulk 1) resp200 none).state.remainingDownloadsLimit = some 4 ∧
    (runDownloadFile baseCfg { baseState with remainingDownloadsLimit := some 0 }
        1 none resp200 none).fetched = false ∧
    (runDownloadFile baseCfg { baseState with remainingDownloadsLimit := some 0 }
        1 none resp200 none).events =
      [Event.dailyRateLimited baseState.pendingIds] :=
  ⟨by
    have h := C4_allowance_decrement.1 baseCfg
      { baseState with remainingDownloadsLimit := some 5 }
      (QueuedTask.bulk 1) resp200 none 5 rfl (by decide)
    simpa using h,
   (C4_allowance_decrement.2.1 baseCfg
      { baseState with remainingDownloadsLimit := some 0 } 1 none Mirror.Catboy
      [Mirror.Nerinyan, Mirror.OsuDirect, Mirror.Sayobot, Mirror.Beatconnect,
        Mirror.Nekoha] resp200 none 0 (by decide) rfl (by decide)).1,
   (C4_allowance_decrement.2.1 baseCfg
      { baseState with remainingDownloadsLimit := some 0 } 1 none Mirror.Catboy
      [Mirror.Nerinyan, Mirror.OsuDirect, Mirror.Sayobot, Mirror.Beatconnect,
        Mirror.Nekoha] resp200 none 0 (by decide) rfl (by decide)).2.1⟩

theorem h429_resumeAt (s : ManagerState) (id : Nat) (rm : Option (List Mirror))
    (cm : Mirror) (p : Bool) (ev : List Event) (rl : Option Int) :
    (handle429 s id rm cm p ev rl).state.resumeAt =
      if isUnthrottled cm then s.resumeAt
      else if s.queuePaused then s.resumeAt else some (s.now + 60000) := by
  simp only [handle429]
  split_ifs <;> simp_all [rlh_resumeAt]

/-- Function `runAttempt` under an unexhausted allowance is the header check followed
by the status dispatch. -/
theorem runAttempt_eq_dispatch (cfg : Config) (s : ManagerState) (id : Nat)
    (rm : Option (List Mirror)) (cm : Mirror) (nm : List Mirror)
    (resp : HttpResponse) (rl : Option Int)
    (hl : limitExhausted s.remainingDownloadsLimit = false) :
    runAttempt cfg s id rm cm nm resp rl =
      dispatchStatus cfg
        (if headerFires cm resp { s with testRequest := false }
         then rateLimitedHandler { s with testRequest := false }
         else { s with testRequest := false })
        id rm cm nm resp rl s.testRequest
        (Event.downloading id ::
          (if headerFires cm resp { s with testRequest := false }
           then [Event.rateLimited] else [])) := by
  simp only [runAttempt]
  rw [if_neg (by simp [hl])]

theorem dispatch_403 (cfg : Config) (s2 : ManagerState) (id : Nat)
    (rm : Option (List Mirror)) (cm : Mirror) (nm : List Mirror)
    (resp : HttpResponse) (rl : Option Int) (p : Bool) (ev : List Event)
    (hst : resp.status = 403) :
    cm ∈ (dispatchStatus cfg s2 id rm cm nm resp rl p ev).state.bannedMirrors ∧
    (nm ≠ [] →
      (dispatchStatus cfg s2 id rm cm nm resp rl p ev).enqueued =
        [QueuedTask.retryNext id nm] ∧
      Event.retrying id ∈ (dispatchStatus cfg s2 id rm cm nm resp rl p ev).events) ∧
    (nm = [] →
      (dispatchStatus cfg s2 id rm cm nm resp rl p ev).enqueued = [] ∧
      Event.blocked s2.pendingIds ∈
        (dispatchStatus cfg s2 id rm cm nm resp rl p ev).events) := by
  have h1 : (resp.status == 429) = false := by simp [hst]
  have h2 : (resp.status == 403 || resp.status == 451) = true := by simp [hst]
  rw [show dispatchStatus cfg s2 id rm cm nm resp rl p ev =
      handleBlock s2 id 403 p cm nm ev from by
    simp [dispatchStatus, h1, h2, hst]]
  refine ⟨hb_banned_403 s2 id p cm nm ev, ?_, ?_⟩
  · intro hnm
    rcases nm with _ | ⟨m0, ms⟩
    · exact absurd rfl hnm
    · simp only [handleBlock]
      split_ifs <;> simp_all [catch_of_cons]
  · intro hnm
    subst hnm
    simp only [handleBlock]
    split_ifs <;> simp_all

theorem dispatch_451 (cfg : Config) (s2 : ManagerState) (id : Nat)
    (rm : Option (List Mirror)) (cm : Mirror) (nm : List Mirror)
    (resp : HttpResponse) (rl : Option Int) (p : Bool) (ev : List Event)
    (hst : resp.status = 451) :
    (dispatchStatus cfg s2 id rm cm nm resp rl p ev).state.bannedMirrors =
      s2.bannedMirrors ∧
    (nm ≠ [] →
      (dispatchStatus cfg s2 id rm cm nm resp rl p ev).enqueued =
        [QueuedTask.retryNext id nm] ∧
      Event.retrying id ∈ (dispatchStatus cfg s2 id rm cm nm resp rl p ev).events) ∧
    (nm = [] →
      (dispatchStatus cfg s2 id rm cm nm resp rl p ev).enqueued = [] ∧
      Event.unavailable s2.pendingIds ∈
        (dispatchStatus cfg s2 id rm cm nm resp rl p ev).events) := by
  have h1 : (resp.status == 429) = false := by simp [hst]
  have h2 : (resp.status == 403 || resp.status == 451) = true := by simp [hst]
  rw [show dispatchStatus cfg s2 id rm cm nm resp rl p ev =
      handleBlock s2 id 451 p cm nm ev from by
    simp [dispatchStatus, h1, h2, hst]]
  refine ⟨hb_banned_451 s2 id p cm nm ev, ?_, ?_⟩
  · intro hnm
    rcases nm with _ | ⟨m0, ms⟩
    · exact absurd rfl hnm
    · simp only [handleBlock]
      split_ifs <;> simp_all [catch_of_cons]
  · intro hnm
    subst hnm
    simp only [handleBlock]
    split_ifs <;> simp_all

/-- The 403 branch of one whole attempt: the current mirror is banned, then
the item retries on the remaining mirrors when any are left, else `blocked`
is emitted. -/
theorem runAttempt_403 (cfg : Config) (s : ManagerState) (id : Nat)
    (rm : Option (List Mirror)) (cm : Mirror) (nm : List Mirror)
    (resp : HttpResponse) (rl : Option Int)
    (hst : resp.status = 403)
    (hl : limitExhausted s.remainingDownloadsLimit = false) :
    cm ∈ (runAttempt cfg s id rm cm nm resp rl).state.bannedMirrors ∧
    (nm ≠ [] →
      (runAttempt cfg s id rm cm nm resp rl).enqueued =
        [QueuedTask.retryNext id nm] ∧
      Event.retrying id ∈ (runAttempt cfg s id rm cm nm resp rl).events) ∧
    (nm = [] →
      (runAttempt cfg s id rm cm nm resp rl).enqueued = [] ∧
      Event.blocked s.pendingIds ∈ (runAttempt cfg s id rm cm nm resp rl).events) := by
  rw [runAttempt_eq_dispatch cfg s id rm cm nm resp rl hl]
  have hpend : (if headerFires cm resp { s with testRequest := false }
      then rateLimitedHandler { s with testRequest := false }
      else ({ s with testRequest := false } : ManagerState)).pendingIds =
      s.pendingIds := by
    split_ifs <;> simp
  have h := dispatch_403 cfg
    (if headerFires cm resp { s with testRequest := false }
     then rateLimitedHandler { s with testRequest := false }
     else { s with testRequest := false })
    id rm cm nm resp rl s.testRequest
    (Event.downloading id ::
      (if headerFires cm resp { s with testRequest := false }
       then [Event.rateLimited] else [])) hst
  rw [hpend] at h
  exact h

/-- The 451 branch of one whole attempt: no ban; retry on the remaining
mirrors when any are left, else `unavailable` is emitted. -/
theorem runAttempt_451 (cfg : Config) (s : ManagerState) (id : Nat)
    (rm : Option (List Mirror)) (cm : Mirror) (nm : List Mirror)
    (resp : HttpResponse) (rl : Option Int)
    (hst : resp.status = 451)
    (hl : limitExhausted s.remainingDownloadsLimit = false) :
    (runAttempt cfg s id rm cm nm resp rl).state.bannedMirrors = s.bannedMirrors ∧
    (nm ≠ [] →
      (runAttempt cfg s id rm cm nm resp rl).enqueued =
        [QueuedTask.retryNext id nm] ∧
      Event.retrying id ∈ (runAttempt cfg s id rm cm nm resp rl).events) ∧
    (nm = [] →
      (runAttempt cfg s id rm cm nm resp rl).enqueued = [] ∧
      Event.unavailable s.pendingIds ∈
        (runAttempt cfg s id rm cm nm resp rl).events) := by
  rw [runAttempt_eq_dispatch cfg s id rm cm nm resp rl hl]
  have hpend : (if headerFires cm resp { s with testRequest := false }
      then rateLimitedHandler { s with testRequest := false }
      else ({ s with testRequest := false } : ManagerState)).pendingIds =
      s.pendingIds := by
    split_ifs <;> simp
  have hban : (if headerFires cm resp { s with testRequest := false }
      then rateLimitedHandler { s with testRequest := false }
      else ({ s with testRequest := false } : ManagerState)).bannedMirrors =
      s.bannedMirrors := by
    split_ifs <;> simp
  have h := dispatch_451 cfg
    (if headerFires cm resp { s with testRequest := false }
     then rateLimitedHandler { s with testRequest := false }
     else { s with testRequest := false })
    id rm cm nm resp rl s.testRequest
    (Event.downloading id ::
      (if headerFires cm resp { s with testRequest := false }
       then [Event.rateLimited] else [])) hst
  rw [hpend, hban] at h
  exact h

/-- C5: a 403 from mirror M adds M to the shared banned set (first
conjunct); the banned set only grows across any task execution (second
conjunct); a banned mirror never appears in any later attempt chain (third
conjunct); on 403 the item retries the next mirror when any remain, else the
run is `blocked` (first conjunct); a 451 bans nothing and retries the next
mirror when any remain, else `unavailable` (fourth conjunct). -/
theorem C5_403_bans_mirror :
    (∀ (cfg : Config) (s : ManagerState) (id : Nat) (rm : Option (List Mirror))
       (cm : Mirror) (nm : List Mirror) (resp : HttpResponse) (rl : Option Int),
       attemptChain cfg s rm = cm :: nm → resp.status = 403 →
       limitExhausted s.remainingDownloadsLimit = false →
       cm ∈ (runDownloadFile cfg s id rm resp rl).state.bannedMirrors ∧
       (nm ≠ [] →
         (runDownloadFile cfg s id rm resp rl).enqueued =
           [QueuedTask.retryNext id nm] ∧
         Event.retrying id ∈ (runDownloadFile cfg s id rm resp rl).events) ∧
       (nm = [] →
         (runDownloadFile cfg s id rm resp rl).enqueued = [] ∧
         Event.blocked s.pendingIds ∈ (runDownloadFile cfg s id rm resp rl).events))
    ∧ (∀ (cfg : Config) (s : ManagerState) (t : QueuedTask) (resp : HttpResponse)
         (rl : Option Int) (m : Mirror),
         m ∈ s.bannedMirrors → m ∈ (runTask cfg s t resp rl).state.bannedMirrors)
    ∧ (∀ (cfg : Config) (s : ManagerState) (rm : Option (List Mirror)) (m : Mirror),
         m ∈ s.bannedMirrors → m ∉ attemptChain cfg s rm)
    ∧ (∀ (cfg : Config) (s : ManagerState) (id : Nat) (rm : Option (List Mirror))
         (cm : Mirror) (nm : List Mirror) (resp : HttpResponse) (rl : Option Int),
         attemptChain cfg s rm = cm :: nm → resp.status = 451 →
         limitExhausted s.remainingDownloadsLimit = false →
         (runDownloadFile cfg s id rm resp rl).state.bannedMirrors =
           s.bannedMirrors ∧
         (nm ≠ [] →
           (runDownloadFile cfg s id rm resp rl).enqueued =
             [QueuedTask.retryNext id nm] ∧
           Event.retrying id ∈ (runDownloadFile cfg s id rm resp rl).events) ∧
         (nm = [] →
           (runDownloadFile cfg s id rm resp rl).enqueued = [] ∧
           Event.unavailable s.pendingIds ∈
             (runDownloadFile cfg s id rm resp rl).events)) := by
  refine ⟨?_, ?_, ?_, ?_⟩
  · intro cfg s id rm cm nm resp rl hc hst hl
    rw [runDownloadFile_of_chain cfg s id rm cm nm resp rl hc]
    exact runAttempt_403 cfg s id rm cm nm resp rl hst hl
  · intro cfg s t resp rl m hm
    exact runTask_banned_mono cfg s t resp rl m hm
  · intro cfg s rm m hm
    exact chain_skips_banned cfg s rm m hm
  · intro cfg s id rm cm nm resp rl hc hst hl
    rw [runDownloadFile_of_chain cfg s id rm cm nm resp rl hc]
    exact runAttempt_451 cfg s id rm cm nm resp rl hst hl

/-- Witness for C5 at concrete inputs: a 403 from Catboy with fallbacks left,
and a 451 from Catboy. -/
theorem C5_403_bans_mirror_witness :
    Mirror.Catboy ∈ (runDownloadFile baseCfg baseState 1 none resp403 none).state.bannedMirrors ∧
    (runDownloadFile baseCfg baseState 1 none resp403 none).enqueued =
      [QueuedTask.retryNext 1 [Mirror.Nerinyan, Mirror.OsuDirect, Mirror.Sayobot,
        Mirror.Beatconnect, Mirror.Nekoha]] ∧
    (runDownloadFile baseCfg baseState 1 none resp451 none).state.bannedMirrors =
      baseState.bannedMirrors ∧
    Mirror.Nekoha ∉ attemptChain baseCfg
      { baseState with bannedMirrors := [Mirror.Nekoha] } none :=
  ⟨(C5_403_bans_mirror.1 baseCfg baseState 1 none Mirror.Catboy
      [Mirror.Nerinyan, Mirror.OsuDirect, Mirror.Sayobot, Mirror.Beatconnect,
        Mirror.Nekoha] resp403 none (by decide) (by decide) (by decide)).1,
   ((C5_403_bans_mirror.1 baseCfg baseState 1 none Mirror.Catboy
      [Mirror.Nerinyan, Mirror.OsuDirect, Mirror.Sayobot, Mirror.Beatconnect,
        Mirror.Nekoha] resp403 none (by decide) (by decide) (by decide)).2.1
      (by decide)).1,
   (C5_403_bans_mirror.2.2.2 baseCfg baseState 1 none Mirror.Catboy
      [Mirror.Nerinyan, Mirror.OsuDirect, Mirror.Sayobot, Mirror.Beatconnect,
        Mirror.Nekoha] resp451 none (by decide) (by decide) (by decide)).1,
   C5_403_bans_mirror.2.2.1 baseCfg
      { baseState with bannedMirrors := [Mirror.Nekoha] } none Mirror.Nekoha
      (by decide)⟩

theorem dispatch_429_unthrottled (cfg : Config) (s2 : ManagerState) (id : Nat)
    (rm : Option (List Mirror)) (cm : Mirror) (nm : List Mirror)
    (resp : HttpResponse) (rl : Option Int) (p : Bool) (ev : List Event)
    (hcm : isUnthrottled cm = true) (hst : resp.status = 429) :
    dispatchStatus cfg s2 id rm cm nm resp rl p ev =
      { success := false, state := s2, events := ev,
        enqueued := [QueuedTask.plain id rm], fetched := true,
        rlChecked := false, deletedFile := false } := by
  have h429 : (resp.status == 429) = true := by simp [hst]
  simp [dispatchStatus, h429, handle429, hcm]

/-- C8: a 429 from an unthrottled-class mirror leaves the queue pause flag,
the concurrency limit, the resume timer and the banned set unchanged, emits
no `rateLimited` signal, and simply re-enqueues the same item with the same
remaining-mirror options, which (the banned set being unchanged) resolve to
the same mirror chain, so the retry targets the same mirror. -/
theorem C8_unthrottled_429_frame :
    ∀ (cfg : Config) (s : ManagerState) (id : Nat) (rm : Option (List Mirror))
      (cm : Mirror) (nm : List Mirror) (resp : HttpResponse) (rl : Option Int),
      attemptChain cfg s rm = cm :: nm →
      isUnthrottled cm = true →
      resp.status = 429 →
      limitExhausted s.remainingDownloadsLimit = false →
      (runDownloadFile cfg s id rm resp rl).state.queuePaused = s.queuePaused ∧
      (runDownloadFile cfg s id rm resp rl).state.queueConcurrency =
        s.queueConcurrency ∧
      (runDownloadFile cfg s id rm resp rl).state.resumeAt = s.resumeAt ∧
      (runDownloadFile cfg s id rm resp rl).state.bannedMirrors = s.bannedMirrors ∧
      Event.rateLimited ∉ (runDownloadFile cfg s id rm resp rl).events ∧
      (runDownloadFile cfg s id rm resp rl).enqueued = [QueuedTask.plain id rm] ∧
      (runDownloadFile cfg s id rm resp rl).success = false ∧
      attemptChain cfg (runDownloadFile cfg s id rm resp rl).state rm =
        attemptChain cfg s rm := by
  intro cfg s id rm cm nm resp rl hc hcm hst hl
  rw [runDownloadFile_of_chain cfg s id rm cm nm resp rl hc,
    runAttempt_eq_dispatch cfg s id rm cm nm resp rl hl]
  have hf : headerFires cm resp { s with testRequest := false } = false := by
    simp [headerFires, hcm]
  rw [if_neg (by simp [hf]), if_neg (by simp [hf]),
    dispatch_429_unthrottled cfg _ id rm cm nm resp rl _ _ hcm hst]
  refine ⟨rfl, rfl, rfl, rfl, by simp, rfl, rfl, ?_⟩
  exact attemptChain_congr cfg s { s with testRequest := false } rm rfl

/-- Witness for C8 at concrete inputs: a 429 from Nerinyan (unthrottled). -/
theorem C8_unthrottled_429_frame_witness :
    (runDownloadFile c6Cfg baseState 1 none resp429 none).state.queuePaused =
      baseState.queuePaused ∧
    (runDownloadFile c6Cfg baseState 1 none resp429 none).state.queueConcurrency =
      baseState.queueConcurrency ∧
    Event.rateLimited ∉ (runDownloadFile c6Cfg baseState 1 none resp429 none).events ∧
    (runDownloadFile c6Cfg baseState 1 none resp429 none).enqueued =
      [QueuedTask.plain 1 none] :=
  ⟨(C8_unthrottled_429_frame c6Cfg baseState 1 none Mirror.Nerinyan
      [Mirror.Catboy, Mirror.OsuDirect, Mirror.Sayobot, Mirror.Beatconnect,
        Mirror.Nekoha] resp429 none (by decide) (by decide) (by decide) (by decide)).1,
   (C8_unthrottled_429_frame c6Cfg baseState 1 none Mirror.Nerinyan
      [Mirror.Catboy, Mirror.OsuDirect, Mirror.Sayobot, Mirror.Beatconnect,
        Mirror.Nekoha] resp429 none (by decide) (by decide) (by decide) (by decide)).2.1,
   (C8_unthrottled_429_frame c6Cfg baseState 1 none Mirror.Nerinyan
      [Mirror.Catboy, Mirror.OsuDirect, Mirror.Sayobot, Mirror.Beatconnect,
        Mirror.Nekoha] resp429 none (by decide) (by decide) (by decide) (by decide)).2.2.2.2.1,
   (C8_unthrottled_429_frame c6Cfg baseState 1 none Mirror.Nerinyan
      [Mirror.Catboy, Mirror.OsuDirect, Mirror.Sayobot, Mirror.Beatconnect,
        Mirror.Nekoha] resp429 none (by decide) (by decide) (by decide) (by decide)).2.2.2.2.2.1⟩

theorem dispatch_200_small (cfg : Config) (s2 : ManagerState) (id : Nat)
    (rm : Option (List Mirror)) (cm : Mirror) (nm : List Mirror)
    (resp : HttpResponse) (rl : Option Int) (p : Bool) (ev : List Event) (n : Nat)
    (hst : resp.status = 200) (hb : resp.bodyBytes = some n) (hn : n < 1024) :
    dispatchStatus cfg s2 id rm cm nm resp rl p ev =
      catchClause
        (if p then { s2 with queueConcurrency := configConcurrency cfg } else s2)
        id p nm ev true := by
  have h1 : (resp.status == 429) = false := by simp [hst]
  have h2 : (resp.status == 403 || resp.status == 451) = false := by simp [hst]
  have h3 : (resp.status != 200) = false := by simp [hst]
  simp [dispatchStatus, h1, h2, h3, handle200, hb, hn]

/-- C9: a 200 response whose fully written body is under 1024 bytes deletes
the partial file and is treated as a transient error: no success, the item
stays in the pending collection, the downloaded counter is untouched, the
item retries on the next remaining mirror when any remain, else the per-item
`error` event fires; no batch-terminal event (`blocked`, `unavailable`,
`dailyRateLimited`) is emitted. -/
theorem C9_undersized_body_transient :
    ∀ (cfg : Config) (s : ManagerState) (id : Nat) (rm : Option (List Mirror))
      (cm : Mirror) (nm : List Mirror) (resp : HttpResponse) (rl : Option Int)
      (n : Nat),
      attemptChain cfg s rm = cm :: nm →
      resp.status = 200 → resp.bodyBytes = some n → n < 1024 →
      limitExhausted s.remainingDownloadsLimit = false →
      (runDownloadFile cfg s id rm resp rl).deletedFile = true ∧
      (runDownloadFile cfg s id rm resp rl).success = false ∧
      (runDownloadFile cfg s id rm resp rl).state.pendingIds = s.pendingIds ∧
      (runDownloadFile cfg s id rm resp rl).state.downloadedBeatMapSetSize =
        s.downloadedBeatMapSetSize ∧
      (nm ≠ [] →
        (runDownloadFile cfg s id rm resp rl).enqueued =
          [QueuedTask.retryNext id nm] ∧
        Event.retrying id ∈ (runDownloadFile cfg s id rm resp rl).events) ∧
      (nm = [] →
        (runDownloadFile cfg s id rm resp rl).enqueued = [] ∧
        Event.errored id ∈ (runDownloadFile cfg s id rm resp rl).events) ∧
      (∀ ids, Event.blocked ids ∉ (runDownloadFile cfg s id rm resp rl).events ∧
        Event.unavailable ids ∉ (runDownloadFile cfg s id rm resp rl).events ∧
        Event.dailyRateLimited ids ∉ (runDownloadFile cfg s id rm resp rl).events) := by
  intro cfg s id rm cm nm resp rl n hc hst hb hn hl
  rw [runDownloadFile_of_chain cfg s id rm cm nm resp rl hc,
    runAttempt_eq_dispatch cfg s id rm cm nm resp rl hl,
    dispatch_200_small cfg _ id rm cm nm resp rl _ _ n hst hb hn]
  refine ⟨by simp, by simp, ?_, ?_, ?_, ?_, ?_⟩
  · rw [catch_pending]
    split_ifs <;> simp
  · rw [catch_downloaded]
    split_ifs <;> simp
  · intro hnm
    rcases nm with _ | ⟨m0, ms⟩
    · exact absurd rfl hnm
    · refine ⟨(catch_of_cons _ _ _ _ _ _ _).1, ?_⟩
      rw [(catch_of_cons _ _ _ _ _ _ _).2]
      simp
  · intro hnm
    subst hnm
    refine ⟨(catch_of_nil _ _ _ _ _).1, ?_⟩
    rw [(catch_of_nil _ _ _ _ _).2]
    simp
  · intro ids
    rcases nm with _ | ⟨m0, ms⟩
    · refine ⟨?_, ?_, ?_⟩ <;>
        · rw [(catch_of_nil _ _ _ _ _).2]
          split_ifs <;> simp
    · refine ⟨?_, ?_, ?_⟩ <;>
        · rw [(catch_of_cons _ _ _ _ _ _ _).2]
          split_ifs <;> simp

/-- Witness for C9 at concrete inputs: a 200 response with a 100-byte body on
the first Catboy attempt. -/
theorem C9_undersized_body_transient_witness :
    (runDownloadFile baseCfg baseState 1 none resp200small none).deletedFile = true ∧
    (runDownloadFile baseCfg baseState 1 none resp200small none).success = false ∧
    (runDownloadFile baseCfg baseState 1 none resp200small none).state.pendingIds =
      baseState.pendingIds ∧
    (runDownloadFile baseCfg baseState 1 none resp200small none).enqueued =
      [QueuedTask.retryNext 1 [Mirror.Nerinyan, Mirror.OsuDirect, Mirror.Sayobot,
        Mirror.Beatconnect, Mirror.Nekoha]] :=
  ⟨(C9_undersized_body_transient baseCfg baseState 1 none Mirror.Catboy
      [Mirror.Nerinyan, Mirror.OsuDirect, Mirror.Sayobot, Mirror.Beatconnect,
        Mirror.Nekoha] resp200small none 100 (by decide) (by decide) (by decide)
      (by decide) (by decide)).1,
   (C9_undersized_body_transient baseCfg baseState 1 none Mirror.Catboy
      [Mirror.Nerinyan, Mirror.OsuDirect, Mirror.Sayobot, Mirror.Beatconnect,
        Mirror.Nekoha] resp200small none 100 (by decide) (by decide) (by decide)
      (by decide) (by decide)).2.1,
   (C9_undersized_body_transient baseCfg baseState 1 none Mirror.Catboy
      [Mirror.Nerinyan, Mirror.OsuDirect, Mirror.Sayobot, Mirror.Beatconnect,
        Mirror.Nekoha] resp200small none 100 (by decide) (by decide) (by decide)
      (by decide) (by decide)).2.2.1,
   ((C9_undersized_body_transient baseCfg baseState 1 none Mirror.Catboy
      [Mirror.Nerinyan, Mirror.OsuDirect, Mirror.Sayobot, Mirror.Beatconnect,
        Mirror.Nekoha] resp200small none 100 (by decide) (by decide) (by decide)
      (by decide) (by decide)).2.2.2.2.1 (by decide)).1⟩

/-- C6 (failing input): config mirror Nerinyan, one pending item 1; the first
attempt returns 429 (re-enqueued via the plain 429 path whose result is
discarded), the retry returns 200 with a 2000-byte body.  The item is counted
and announced as downloaded exactly once, but it is never removed from the
pending collection: the run ends with item 1 still reported in the
not-downloaded list. -/
theorem C6_success_after_429_stays_pending :
    c6Final.mgr.downloadedBeatMapSetSize = 1 ∧
    c6Final.eventLog.count (Event.downloaded 1) = 1 ∧
    c6Final.mgr.pendingIds = [1] ∧
    Event.ended [1] ∈ c6Final.eventLog := by decide

/-- The status dispatch of a non-probe response on an already-paused queue
leaves pause, concurrency and timer state alone, and keeps the already
emitted events. -/
theorem dispatch_frame_nonprobe (cfg : Config) (s2 : ManagerState) (id : Nat)
    (rm : Option (List Mirror)) (cm : Mirror) (nm : List Mirror)
    (resp : HttpResponse) (rl : Option Int) (ev : List Event)
    (hp2 : s2.queuePaused = true) :
    (dispatchStatus cfg s2 id rm cm nm resp rl false ev).state.queuePaused = true ∧
    (dispatchStatus cfg s2 id rm cm nm resp rl false ev).state.queueConcurrency =
      s2.queueConcurrency ∧
    (dispatchStatus cfg s2 id rm cm nm resp rl false ev).state.resumeAt =
      s2.resumeAt ∧
    (∀ e, e ∈ ev → e ∈ (dispatchStatus cfg s2 id rm cm nm resp rl false ev).events) := by
  simp only [dispatchStatus]
  split_ifs with d1 d2 d3
  · refine ⟨?_, ?_, ?_, fun e he => h429_events_mono _ _ _ _ _ _ _ _ he⟩
    · rw [h429_paused]
      split_ifs <;> simp [hp2]
    · rw [h429_conc]
      split_ifs <;> simp [hp2]
    · rw [h429_resumeAt]
      split_ifs <;> simp [hp2]
  · exact ⟨by simp [hp2], by simp, by simp,
      fun e he => hb_events_mono _ _ _ _ _ _ _ _ he⟩
  · exact ⟨by simp [hp2], by simp, by simp,
      fun e he => catch_events_mono _ _ _ _ _ _ _ he⟩
  · refine ⟨by simp [hp2], ?_, by simp,
      fun e he => h200_events_mono _ _ _ _ _ _ _ _ he⟩
    rw [h200_conc]
    simp

/-- An in-attempt pause caused by a low quota header on a non-probe response
from a throttled mirror while the queue is running. -/
theorem runAttempt_header_low (cfg : Config) (s : ManagerState) (id : Nat)
    (rm : Option (List Mirror)) (cm : Mirror) (nm : List Mirror)
    (resp : HttpResponse) (rl : Option Int)
    (hcm : isUnthrottled cm = false)
    (hq : quotaLow resp.xRateLimitRemaining = true)
    (hl : limitExhausted s.remainingDownloadsLimit = false)
    (hp : s.queuePaused = false) (hpr : s.testRequest = false) :
    Event.rateLimited ∈ (runAttempt cfg s id rm cm nm resp rl).events ∧
    (runAttempt cfg s id rm cm nm resp rl).state.queuePaused = true ∧
    (runAttempt cfg s id rm cm nm resp rl).state.queueConcurrency = 1 ∧
    (runAttempt cfg s id rm cm nm resp rl).state.resumeAt = some (s.now + 60000) := by
  rw [runAttempt_eq_dispatch cfg s id rm cm nm resp rl hl]
  have hf : headerFires cm resp { s with testRequest := false } = true := by
    simp [headerFires, hcm, hq, hp]
  rw [if_pos hf, if_pos hf, hpr]
  have hp2 : (rateLimitedHandler
      ({ s with testRequest := false } : ManagerState)).queuePaused = true :=
    rlh_paused _
  have hfr := dispatch_frame_nonprobe cfg
    (rateLimitedHandler { s with testRequest := false }) id rm cm nm resp rl
    [Event.downloading id, Event.rateLimited] hp2
  refine ⟨hfr.2.2.2 Event.rateLimited (by simp), hfr.1, ?_, ?_⟩
  · rw [hfr.2.1, rlh_conc]
    simp [hp]
  · rw [hfr.2.2.1, rlh_resumeAt]
    simp [hp]

/-- C7 (amended): on every non-probe response from a throttled-class mirror
whose remaining-quota header value is below the low-water mark of 12, while
the queue is not already paused, the soft-rate-limit signal fires: the queue
pauses, concurrency drops to 1, and a resume is scheduled 60 seconds out,
firing at or after that instant (second conjunct).  Scenario: a single
throttled mirror returning 429 three times with quota header values 20, 10
and 5 leaves the queue paused after the third response with exactly 3 fetches
issued, so the pause precedes any 4th attempt (third conjunct). -/
theorem C7_low_quota_soft_limit :
    (∀ (cfg : Config) (s : ManagerState) (id : Nat) (rm : Option (List Mirror))
       (cm : Mirror) (nm : List Mirror) (resp : HttpResponse) (rl : Option Int)
       (v : Nat),
       attemptChain cfg s rm = cm :: nm →
       isUnthrottled cm = false →
       resp.xRateLimitRemaining = some v → v < 12 →
       limitExhausted s.remainingDownloadsLimit = false →
       s.queuePaused = false → s.testRequest = false →
       Event.rateLimited ∈ (runDownloadFile cfg s id rm resp rl).events ∧
       (runDownloadFile cfg s id rm resp rl).state.queuePaused = true ∧
       (runDownloadFile cfg s id rm resp rl).state.queueConcurrency = 1 ∧
       (runDownloadFile cfg s id rm resp rl).state.resumeAt = some (s.now + 60000))
    ∧ (∀ (cfg : Config) (fetchScript : Nat → HttpResponse)
         (rlScript : Nat → Option Int) (st : SysState) (t : Nat),
         st.mgr.queuePaused = true → st.mgr.resumeAt = some t →
         (sysStep cfg fetchScript rlScript st).mgr.queuePaused = false ∧
         t ≤ (sysStep cfg fetchScript rlScript st).mgr.now)
    ∧ (c7Final.fetchCount = 3 ∧ c7Final.mgr.queuePaused = true ∧
       Event.rateLimited ∈ c7Final.eventLog) := by
  refine ⟨?_, ?_, by decide⟩
  · intro cfg s id rm cm nm resp rl v hc hcm hhdr hv hl hp hpr
    rw [runDownloadFile_of_chain cfg s id rm cm nm resp rl hc]
    have hq : quotaLow resp.xRateLimitRemaining = true := by
      rw [hhdr]
      simp only [quotaLow, decide_eq_true_eq]
      omega
    exact runAttempt_header_low cfg s id rm cm nm resp rl hcm hq hl hp hpr
  · intro cfg fetchScript rlScript st t hp hr
    exact sysStep_timer cfg fetchScript rlScript st t hp hr

/-- Counterexample to C7 as stated: a response from the throttled Catboy
mirror carrying quota header 5 (below 12) that arrives while the queue is
already paused mid-cooldown does not fire the signal: no `rateLimited` event
is emitted and the pending resume timer is left as it was. -/
theorem C7_counterexample :
    quotaLow sPausedResp.xRateLimitRemaining = true ∧
    sPausedMidCooldown.queuePaused = true ∧
    Event.rateLimited ∉
      (runDownloadFile baseCfg sPausedMidCooldown 1 none sPausedResp none).events ∧
    (runDownloadFile baseCfg sPausedMidCooldown 1 none sPausedResp none).state.resumeAt =
      some 161000 := by decide

/-- Witness for C7 at concrete inputs: a 200 response with quota header 5 on
the first Catboy attempt from the running default state. -/
theorem C7_low_quota_soft_limit_witness :
    Event.rateLimited ∈
      (runDownloadFile baseCfg baseState 1 none resp200lowQuota none).events ∧
    (runDownloadFile baseCfg baseState 1 none resp200lowQuota none).state.queuePaused =
      true ∧
    (runDownloadFile baseCfg baseState 1 none resp200lowQuota none).state.queueConcurrency =
      1 ∧
    (runDownloadFile baseCfg baseState 1 none resp200lowQuota none).state.resumeAt =
      some (baseState.now + 60000) :=
  C7_low_quota_soft_limit.1 baseCfg baseState 1 none Mirror.Catboy
    [Mirror.Nerinyan, Mirror.OsuDirect, Mirror.Sayobot, Mirror.Beatconnect,
      Mirror.Nekoha] resp200lowQuota none 5 (by decide) (by decide) (by decide)
    (by decide) (by decide) (by decide) (by decide)

end Ocdl
